import Mathlib

/-!
Verification development for the EnergyMarketTools repository.

The development shallowly embeds the numerical core of `DGValueProp.py` and
`EnergyMarketTools/DGMarketStudy.py`:

* scalar quantities held in `DGIn` attributes are modelled as exact rationals
  (the idealisation of IEEE doubles without rounding error);
* values produced by NumPy array arithmetic are modelled by the type
  `PyFloat` below, which carries the IEEE special values `inf`, `-inf` and
  `NaN` over an exact real payload;
* plain Python scalar division raises `ZeroDivisionError` on a zero
  denominator, so every scalar division in the source is threaded through an
  `Except String` channel via `pydiv`;
* the external library function `np.irr` (an iterative polynomial-root solver
  in NumPy, outside this repository) is abstracted as a parameter
  `np_irr : List Rat -> Except Unit PyFloat`; the repository code wraps it in
  `try ... except ValueError`, which is modelled faithfully.

Signed zeros are not modelled (a single zero), and transcendental functions
are exact (`Real.exp`, `Real.sqrt`, `Real.pi`).
-/


/-- Model of a NumPy float64 value: a finite real (exact idealisation),
positive infinity, negative infinity, or NaN. -/
inductive PyFloat where
  | fin : ℝ → PyFloat
  | inf : PyFloat
  | ninf : PyFloat
  | nan : PyFloat


/-- IEEE negation. -/
def PyFloat.neg : PyFloat → PyFloat
  | fin a => fin (-a)
  | inf => ninf
  | ninf => inf
  | nan => nan

/-- IEEE addition (without rounding): infinities of opposite sign give NaN,
NaN is absorbing. -/
noncomputable def PyFloat.add : PyFloat → PyFloat → PyFloat
  | nan, _ => nan
  | _, nan => nan
  | fin a, fin b => fin (a + b)
  | fin _, inf => inf
  | fin _, ninf => ninf
  | inf, fin _ => inf
  | ninf, fin _ => ninf
  | inf, inf => inf
  | ninf, ninf => ninf
  | inf, ninf => nan
  | ninf, inf => nan

/-- IEEE subtraction is addition of the negation. -/
noncomputable def PyFloat.sub (a b : PyFloat) : PyFloat := add a (neg b)

open scoped Classical in
/-- IEEE multiplication: zero times an infinity gives NaN, NaN is absorbing. -/
noncomputable def PyFloat.mul : PyFloat → PyFloat → PyFloat
  | nan, _ => nan
  | _, nan => nan
  | fin a, fin b => fin (a * b)
  | fin a, inf => if 0 < a then inf else if a < 0 then ninf else nan
  | fin a, ninf => if 0 < a then ninf else if a < 0 then inf else nan
  | inf, fin b => if 0 < b then inf else if b < 0 then ninf else nan
  | ninf, fin b => if 0 < b then ninf else if b < 0 then inf else nan
  | inf, inf => inf
  | inf, ninf => ninf
  | ninf, inf => ninf
  | ninf, ninf => inf

open scoped Classical in
/-- IEEE (NumPy) division: finite / 0 gives NaN for a 0 numerator and a signed
infinity otherwise (NumPy emits a RuntimeWarning but no exception). -/
noncomputable def PyFloat.div : PyFloat → PyFloat → PyFloat
  | nan, _ => nan
  | _, nan => nan
  | fin a, fin b =>
      if b = 0 then (if a = 0 then nan else if 0 < a then inf else ninf)
      else fin (a / b)
  | fin _, inf => fin 0
  | fin _, ninf => fin 0
  | inf, fin b => if 0 ≤ b then inf else ninf
  | ninf, fin b => if 0 ≤ b then ninf else inf
  | inf, inf => nan
  | inf, ninf => nan
  | ninf, inf => nan
  | ninf, ninf => nan


/-- Input parameters for distributed generation value proposition assessment
(class `DGIn` in `DGValueProp.py`).  All numeric attributes are exact
rationals; `life_yrs` is the integer analysis horizon.  The electricity and
gas rates default to NaN in the source but along every modelled code path
they are bound by `set_spread` before being read, so they are plain rationals
here.  `extra` models the dynamic attribute dictionary of a Python object:
`setattr` with a name that is not one of the declared attributes silently
adds an entry there.  The string-formula branch of the constructor (a
`thermal_efficiency` given as a formula over `electric_efficiency`, resolved
once by `eval` at construction) is outside the modelled claims; here
`thermal_efficiency` is always an already-resolved number. -/
structure DGIn where
  electric_efficiency : ℚ
  thermal_efficiency : ℚ
  installed_price_dol_W : ℚ
  maint_cost_dol_kWh : ℚ
  life_yrs : ℕ
  elec_capacity_utilization : ℚ
  therm_capacity_utilization : ℚ
  baseline_thermal_efficiency : ℚ
  inflation_rate : ℚ
  discount_rate : ℚ
  elec_rate_dol_kWh : ℚ
  ng_rate_dol_kWh : ℚ
  extra : List (String × ℚ)
deriving DecidableEq

/-- The attribute names that `DGIn.__init__` declares on every instance. -/
def DGIn.attrNames : List String :=
  ["electric_efficiency", "thermal_efficiency", "installed_price_dol_W",
   "maint_cost_dol_kWh", "life_yrs", "elec_capacity_utilization",
   "therm_capacity_utilization", "baseline_thermal_efficiency",
   "inflation_rate", "discount_rate", "elec_rate_dol_kWh", "ng_rate_dol_kWh"]

/-- Python `setattr(inp, name, v)`: a known attribute name updates that
attribute; any other string silently creates a new dynamic attribute (a plain
Python object accepts arbitrary attribute assignment).  Assigning a
non-integer to `life_yrs` would only fail later in Python (inside `range`);
integer-valued sweeps are captured by taking the floor. -/
def DGIn.setattr (inp : DGIn) (name : String) (v : ℚ) : DGIn :=
  if name = "electric_efficiency" then { inp with electric_efficiency := v }
  else if name = "thermal_efficiency" then { inp with thermal_efficiency := v }
  else if name = "installed_price_dol_W" then { inp with installed_price_dol_W := v }
  else if name = "maint_cost_dol_kWh" then { inp with maint_cost_dol_kWh := v }
  else if name = "life_yrs" then { inp with life_yrs := v.floor.toNat }
  else if name = "elec_capacity_utilization" then { inp with elec_capacity_utilization := v }
  else if name = "therm_capacity_utilization" then { inp with therm_capacity_utilization := v }
  else if name = "baseline_thermal_efficiency" then { inp with baseline_thermal_efficiency := v }
  else if name = "inflation_rate" then { inp with inflation_rate := v }
  else if name = "discount_rate" then { inp with discount_rate := v }
  else if name = "elec_rate_dol_kWh" then { inp with elec_rate_dol_kWh := v }
  else if name = "ng_rate_dol_kWh" then { inp with ng_rate_dol_kWh := v }
  else { inp with extra := (name, v) :: inp.extra }

/-- Regional rate and generation data for one (region, sector, year), as
supplied by the external EIA data collaborator (`EIAStateQuery`). -/
structure RegionYearData where
  elec_rate_dol_kWh : ℚ
  ng_rate_dol_kWh : ℚ
  net_generation_kWh : ℚ
deriving DecidableEq

instance : Inhabited RegionYearData := ⟨⟨0, 0, 0⟩⟩

/-- `DGIn.set_spread`: copy the two energy rates from a regional data record
onto the input object; nothing else is touched. -/
def DGIn.set_spread (inp : DGIn) (d : RegionYearData) : DGIn :=
  { inp with elec_rate_dol_kWh := d.elec_rate_dol_kWh,
             ng_rate_dol_kWh := d.ng_rate_dol_kWh }

/-- Python scalar division: raises `ZeroDivisionError` on a zero denominator,
otherwise exact. -/
def pydiv (a b : ℚ) : Except String ℚ :=
  if b = 0 then Except.error "ZeroDivisionError" else Except.ok (a / b)

/-- Output metrics of a valuation (class `DGOut`): all six fields are NumPy
float values. -/
structure DGOut where
  NPV_dol_kWh : PyFloat
  IRR : PyFloat
  PB_yrs : PyFloat
  LCOE_dol_kWh : PyFloat
  MaxMarketPen : PyFloat
  Effective_Electric_Efficiency : PyFloat

/-- The metric names accepted by `SensitivityStudy.get_val_metric` (the
attributes of `DGOut`). -/
inductive ValMetric where
  | NPV_dol_kWh
  | IRR
  | PB_yrs
  | LCOE_dol_kWh
  | MaxMarketPen
  | Effective_Electric_Efficiency
deriving DecidableEq

/-- Python `getattr(out, name)` for a `DGOut` value. -/
def DGOut.getattr (o : DGOut) : ValMetric → PyFloat
  | ValMetric.NPV_dol_kWh => o.NPV_dol_kWh
  | ValMetric.IRR => o.IRR
  | ValMetric.PB_yrs => o.PB_yrs
  | ValMetric.LCOE_dol_kWh => o.LCOE_dol_kWh
  | ValMetric.MaxMarketPen => o.MaxMarketPen
  | ValMetric.Effective_Electric_Efficiency => o.Effective_Electric_Efficiency

/-- Maximum market penetration model (local function
`Maximum_Market_Penetration` inside `DGValProp.out`):
`np.where(PB >= 0, A/sqrt(2 pi)/sigma * exp(-(PB/life/sigma)**2/2), 0)` with
`A = 0.3193`, `sigma = 0.1274`.  The NumPy comparison `NaN >= 0` is false, so
NaN and -inf payback give 0; +inf payback satisfies the condition but the
value branch evaluates to `A/sqrt(2 pi)/sigma * exp(-inf) = 0`.  A zero
`life_yrs` makes the value branch `exp(-inf) = 0` for positive payback and
`exp(NaN) = NaN` for a zero payback (0/0). -/
noncomputable def Maximum_Market_Penetration (life_yrs : ℕ) : PyFloat → PyFloat
  | PyFloat.fin x =>
      if 0 ≤ x then
        if life_yrs = 0 then (if x = 0 then PyFloat.nan else PyFloat.fin 0)
        else PyFloat.fin ((0.3193 : ℝ) / Real.sqrt (2 * Real.pi) / 0.1274 *
          Real.exp (-(x / (life_yrs : ℝ) / 0.1274) ^ 2 / 2))
      else PyFloat.fin 0
  | PyFloat.inf => PyFloat.fin 0
  | PyFloat.ninf => PyFloat.fin 0
  | PyFloat.nan => PyFloat.fin 0

/-- Left fold of `(values / (1+rate)**np.arange(i, i+len(values))).sum()`
over NumPy floats, used by both `np.npv` and the discount factor. -/
noncomputable def npvAux (rate : ℚ) : ℕ → List ℚ → PyFloat → PyFloat
  | _, [], acc => acc
  | i, v :: vs, acc =>
      npvAux rate (i + 1) vs
        (PyFloat.add acc (PyFloat.div (PyFloat.fin (v : ℝ))
          (PyFloat.fin (((1 + rate : ℚ) : ℝ) ^ i))))

/-- `np.npv(rate, values)`: sum of `values[i]/(1+rate)**i` from `i = 0`
(the year-0 cash flow is undiscounted). -/
noncomputable def np_npv (rate : ℚ) (values : List ℚ) : PyFloat :=
  npvAux rate 0 values (PyFloat.fin 0)

/-- Discount factor (local function `DF` inside `DGValProp.out`):
`np.sum(1/(1+r)**np.array(range(1, life_yrs+1)))`. -/
noncomputable def DF (inp : DGIn) : PyFloat :=
  npvAux inp.discount_rate 1 (List.replicate inp.life_yrs 1) (PyFloat.fin 0)

/-- Year-0 cash flow (the annualised capital outlay, dollars per kWh):
`-installed_price_dol_W*1000/8760/elec_capacity_utilization`.
Total helper with Lean division; the checked Python evaluation is
`CashFlows_dol_kWh`. -/
def CF0q (inp : DGIn) : ℚ :=
  -(inp.installed_price_dol_W * 1000) / 8760 / inp.elec_capacity_utilization

/-- Operating cash flow for year `i >= 1`, dollars per kWh (the loop body of
`DGValProp.out`).  Total helper with Lean division. -/
def opCF (inp : DGIn) (i : ℕ) : ℚ :=
  (inp.elec_rate_dol_kWh - inp.ng_rate_dol_kWh / inp.electric_efficiency -
    inp.maint_cost_dol_kWh + inp.ng_rate_dol_kWh * inp.thermal_efficiency /
    inp.electric_efficiency / inp.baseline_thermal_efficiency *
    inp.therm_capacity_utilization) * (1 + inp.inflation_rate) ^ i

/-- The full cash flow series `[CF0, CF1, ..., CF_life]` as a total helper. -/
def cashFlowsQ (inp : DGIn) : List ℚ :=
  CF0q inp :: (List.range inp.life_yrs).map (fun k => opCF inp (k + 1))

/-- The cash flow array construction at the top of `DGValProp.out`, with the
Python scalar divisions checked.  When `life_yrs = 0` the operating loop does
not run, so the divisions by `electric_efficiency` and
`baseline_thermal_efficiency` are never executed. -/
def CashFlows_dol_kWh (inp : DGIn) : Except String (List ℚ) := do
  let c0 ← pydiv (-(inp.installed_price_dol_W * 1000) / 8760) inp.elec_capacity_utilization
  if inp.life_yrs = 0 then
    Except.ok [c0]
  else do
    let a ← pydiv inp.ng_rate_dol_kWh inp.electric_efficiency
    let b ← pydiv (inp.ng_rate_dol_kWh * inp.thermal_efficiency) inp.electric_efficiency
    let c ← pydiv b inp.baseline_thermal_efficiency
    Except.ok (c0 :: (List.range inp.life_yrs).map (fun k =>
      (inp.elec_rate_dol_kWh - a - inp.maint_cost_dol_kWh +
        c * inp.therm_capacity_utilization) * (1 + inp.inflation_rate) ^ (k + 1)))

/-- Levelized cost of electricity (local function `LCOE` inside
`DGValProp.out`): the scalar divisions are Python floats (checked), the
division by `DF()` is a NumPy float64 operation. -/
noncomputable def LCOE (inp : DGIn) : Except String PyFloat := do
  let x ← pydiv (inp.installed_price_dol_W * 1000 / 8760) inp.elec_capacity_utilization
  let a ← pydiv inp.ng_rate_dol_kWh inp.electric_efficiency
  let b ← pydiv (inp.ng_rate_dol_kWh * inp.thermal_efficiency) inp.electric_efficiency
  let c ← pydiv b inp.baseline_thermal_efficiency
  Except.ok (PyFloat.sub
    (PyFloat.add
      (PyFloat.add (PyFloat.div (PyFloat.fin (x : ℝ)) (DF inp))
        (PyFloat.fin (a : ℝ)))
      (PyFloat.fin (inp.maint_cost_dol_kWh : ℝ)))
    (PyFloat.fin ((c * inp.therm_capacity_utilization : ℚ) : ℝ)))

/-- Effective electric efficiency (local function
`Effective_Electric_Efficiency` inside `DGValProp.out`):
`electric_efficiency / (1 - thermal_efficiency/baseline_thermal_efficiency *
therm_capacity_utilization/elec_capacity_utilization)`, entirely Python
scalar arithmetic, hence checked divisions. -/
def Effective_Electric_Efficiency (inp : DGIn) : Except String ℚ := do
  let a ← pydiv inp.thermal_efficiency inp.baseline_thermal_efficiency
  let b ← pydiv (a * inp.therm_capacity_utilization) inp.elec_capacity_utilization
  pydiv inp.electric_efficiency (1 - b)

/-- The denominator of the effective electric efficiency, as a total helper. -/
def effDen (inp : DGIn) : ℚ :=
  1 - inp.thermal_efficiency / inp.baseline_thermal_efficiency *
    inp.therm_capacity_utilization / inp.elec_capacity_utilization

/-- The effective electric efficiency as a total helper with Lean division. -/
def effEffQ (inp : DGIn) : ℚ := inp.electric_efficiency / effDen inp

/-- `DGValProp.out`: build the cash flow series, try `np.irr` catching
`ValueError`, compute the simple payback `-CF[0]/CF[1]` (a NumPy scalar
division, and an `IndexError` if `life_yrs = 0` leaves the array with a
single entry), then assemble `DGOut` evaluating its arguments left to right:
`np.npv`, the IRR, the payback, `LCOE()`, the market penetration of the
payback, and `Effective_Electric_Efficiency()`. -/
noncomputable def DGValProp.out (np_irr : List ℚ → Except Unit PyFloat)
    (inp : DGIn) : Except String DGOut := do
  let cf ← CashFlows_dol_kWh inp
  let irr : PyFloat := match np_irr cf with
    | Except.ok v => v
    | Except.error _ => PyFloat.nan
  let c0 ← match cf.get? 0 with
    | some v => Except.ok v
    | none => Except.error "IndexError"
  let c1 ← match cf.get? 1 with
    | some v => Except.ok v
    | none => Except.error "IndexError"
  let PB_yrs : PyFloat := PyFloat.div (PyFloat.fin ((-c0 : ℚ) : ℝ)) (PyFloat.fin (c1 : ℝ))
  let lcoe ← LCOE inp
  let eff ← Effective_Electric_Efficiency inp
  Except.ok
    { NPV_dol_kWh := np_npv inp.discount_rate cf
      IRR := irr
      PB_yrs := PB_yrs
      LCOE_dol_kWh := lcoe
      MaxMarketPen := Maximum_Market_Penetration inp.life_yrs PB_yrs
      Effective_Electric_Efficiency := PyFloat.fin ((eff : ℚ) : ℝ) }

/-- Validity of a `DGIn` for exception-free evaluation of `DGValProp.out`:
nonzero Python-scalar denominators and at least one operating year (so the
payback access `CashFlows[1]` is in range). -/
def DGIn.valid (inp : DGIn) : Prop :=
  inp.electric_efficiency ≠ 0 ∧ inp.baseline_thermal_efficiency ≠ 0 ∧
  inp.elec_capacity_utilization ≠ 0 ∧ 1 ≤ inp.life_yrs ∧ effDen inp ≠ 0

instance (inp : DGIn) : Decidable inp.valid := by
  unfold DGIn.valid
  infer_instance

/-- The `DGOut` value that `DGValProp.out` returns on a valid input, written
with the total helper functions. -/
noncomputable def DGOutOf (np_irr : List ℚ → Except Unit PyFloat) (inp : DGIn) : DGOut :=
  { NPV_dol_kWh := np_npv inp.discount_rate (cashFlowsQ inp)
    IRR := match np_irr (cashFlowsQ inp) with
      | Except.ok v => v
      | Except.error _ => PyFloat.nan
    PB_yrs := PyFloat.div (PyFloat.fin ((-CF0q inp : ℚ) : ℝ))
      (PyFloat.fin ((opCF inp 1 : ℚ) : ℝ))
    LCOE_dol_kWh := PyFloat.sub
      (PyFloat.add
        (PyFloat.add
          (PyFloat.div
            (PyFloat.fin ((inp.installed_price_dol_W * 1000 / 8760 /
              inp.elec_capacity_utilization : ℚ) : ℝ)) (DF inp))
          (PyFloat.fin ((inp.ng_rate_dol_kWh / inp.electric_efficiency : ℚ) : ℝ)))
        (PyFloat.fin ((inp.maint_cost_dol_kWh : ℚ) : ℝ)))
      (PyFloat.fin ((inp.ng_rate_dol_kWh * inp.thermal_efficiency /
        inp.electric_efficiency / inp.baseline_thermal_efficiency *
        inp.therm_capacity_utilization : ℚ) : ℝ))
    MaxMarketPen := Maximum_Market_Penetration inp.life_yrs
      (PyFloat.div (PyFloat.fin ((-CF0q inp : ℚ) : ℝ))
        (PyFloat.fin ((opCF inp 1 : ℚ) : ℝ)))
    Effective_Electric_Efficiency := PyFloat.fin ((effEffQ inp : ℚ) : ℝ) }

/-- The nominal scenario parameters accepted by `SensitivityStudy.__init__`
(everything except the sweep specification and the region/year/sector
selection; the energy rates are bound later from regional data). -/
structure NominalParams where
  electric_efficiency : ℚ
  thermal_efficiency : ℚ
  installed_price_dol_W : ℚ
  maint_cost_dol_kWh : ℚ
  life_yrs : ℕ
  elec_capacity_utilization : ℚ
  therm_capacity_utilization : ℚ
  baseline_thermal_efficiency : ℚ
  inflation_rate : ℚ
  discount_rate : ℚ
deriving DecidableEq

/-- `DGIn(electric_efficiency=..., ..., discount_rate=...)` as called in the
sweep loop: the rate attributes keep their constructor defaults (NaN in the
source) and are immediately overwritten by `set_spread` before any read, so
the placeholder value here is never observable on the modelled paths. -/
def NominalParams.toDGIn (p : NominalParams) : DGIn :=
  { electric_efficiency := p.electric_efficiency
    thermal_efficiency := p.thermal_efficiency
    installed_price_dol_W := p.installed_price_dol_W
    maint_cost_dol_kWh := p.maint_cost_dol_kWh
    life_yrs := p.life_yrs
    elec_capacity_utilization := p.elec_capacity_utilization
    therm_capacity_utilization := p.therm_capacity_utilization
    baseline_thermal_efficiency := p.baseline_thermal_efficiency
    inflation_rate := p.inflation_rate
    discount_rate := p.discount_rate
    elec_rate_dol_kWh := 0
    ng_rate_dol_kWh := 0
    extra := [] }

/-- One cell of the sensitivity grid: build the nominal input, bind the
regional rates with `set_spread`, then `setattr` the x parameter and the y
parameter (in that order, as in the source loop body). -/
def studyCell (data : RegionYearData) (x_param_name : String) (x : ℚ)
    (y_param_name : String) (y : ℚ) (p : NominalParams) : DGIn :=
  ((p.toDGIn.set_spread data).setattr x_param_name x).setattr y_param_name y

/-- The state stored by `SensitivityStudy.__init__`: the sweep values, the
regional total generation in TWh, and the grid of per-cell inputs
(`study[j][i]` holds the scenario for `y_param_values[j]`,
`x_param_values[i]`; outputs are recomputed on demand through the `out`
property). -/
structure SensitivityStudy where
  x_param_values : List ℚ
  y_param_values : List ℚ
  NetGeneration_TWh : ℚ
  study : List (List DGIn)
deriving DecidableEq

/-- `SensitivityStudy.__init__` for a fixed region/year/sector whose EIA
data is `data`.  The constructor raises no exception for any string sweep
parameter names: `setattr` on a plain Python object always succeeds, so the
result is always `Except.ok`; the `Except` type models the Python exception
channel of the constructor. -/
def SensitivityStudy.init (data : RegionYearData) (x_param_name : String)
    (x_param_values : List ℚ) (y_param_name : String) (y_param_values : List ℚ)
    (p : NominalParams) : Except String SensitivityStudy :=
  Except.ok
    { x_param_values := x_param_values
      y_param_values := y_param_values
      NetGeneration_TWh := data.net_generation_kWh / 1000000000
      study := y_param_values.map fun y => x_param_values.map fun x =>
        studyCell data x_param_name x y_param_name y p }

/-- Effectful map over a list, stopping at the first error: the monadic
shape of a Python list comprehension whose body may raise. -/
def listMapE {α β : Type} (f : α → Except String β) : List α → Except String (List β)
  | [] => Except.ok []
  | a :: as => do
    let b ← f a
    let bs ← listMapE f as
    Except.ok (b :: bs)

/-- `SensitivityStudy.get_val_metric`: recompute `out` for every cell of the
grid and extract the named metric; the result is a row-major array with one
row per y value.  A cell whose evaluation raises propagates the exception. -/
noncomputable def SensitivityStudy.get_val_metric
    (np_irr : List ℚ → Except Unit PyFloat) (st : SensitivityStudy)
    (metric : ValMetric) : Except String (List (List PyFloat)) :=
  listMapE (fun row => listMapE (fun inp =>
    (DGValProp.out np_irr inp).map (fun o => o.getattr metric)) row) st.study

/-- The metric grid of a study built from valid cells, written with the total
helpers. -/
noncomputable def metricGrid (np_irr : List ℚ → Except Unit PyFloat)
    (metric : ValMetric) (data : RegionYearData) (x_param_name : String)
    (xs : List ℚ) (y_param_name : String) (ys : List ℚ) (p : NominalParams) :
    List (List PyFloat) :=
  ys.map fun y => xs.map fun x =>
    (DGOutOf np_irr (studyCell data x_param_name x y_param_name y p)).getattr metric

/-- Elementwise unary operation on a NumPy 2-D array. -/
def gridMap (f : PyFloat → PyFloat) (g : List (List PyFloat)) : List (List PyFloat) :=
  g.map fun row => row.map f

/-- Elementwise binary operation on two NumPy 2-D arrays of the same shape. -/
def gridZip (f : PyFloat → PyFloat → PyFloat) (a b : List (List PyFloat)) :
    List (List PyFloat) :=
  List.zipWith (List.zipWith f) a b

/-- Scalar times array, elementwise. -/
noncomputable def gridScale (c : ℚ) (g : List (List PyFloat)) : List (List PyFloat) :=
  gridMap (fun v => PyFloat.mul (PyFloat.fin (c : ℝ)) v) g

/-- `np.zeros((n, m))` (the `SensZeros` initializer of `MarketStudy`). -/
def zeroGrid (n m : ℕ) : List (List PyFloat) :=
  List.replicate n (List.replicate m (PyFloat.fin 0))

/-- An n-by-m shape predicate for a 2-D array. -/
def gridShape (g : List (List PyFloat)) (n m : ℕ) : Prop :=
  g.length = n ∧ ∀ row ∈ g, row.length = m

/-- Every entry of the array is a finite float. -/
def gridAllFin (g : List (List PyFloat)) : Prop :=
  ∀ row ∈ g, ∀ v ∈ row, ∃ x, v = PyFloat.fin x

/-- The per-sector-year accumulation loop of `MarketStudy.__init__` over the
regions, with the source `if TotalMarket == 0` initialisation branch: the
first pass (and any pass while the accumulated total is still zero) replaces
the accumulators instead of adding to them. -/
noncomputable def marketFold (n m : ℕ) (contribs : List (ℚ × List (List PyFloat))) :
    ℚ × List (List PyFloat) :=
  contribs.foldl
    (fun acc gm =>
      if acc.1 = 0 then (gm.1, gridScale gm.1 gm.2)
      else (acc.1 + gm.1, gridZip PyFloat.add acc.2 (gridScale gm.1 gm.2)))
    (0, zeroGrid n m)

/-- The mathematical elementwise sum of a list of grids, starting from the
zero grid (the formula the specification states for the addressed market). -/
noncomputable def sumGrids (n m : ℕ) (gs : List (List (List PyFloat))) :
    List (List PyFloat) :=
  gs.foldl (gridZip PyFloat.add) (zeroGrid n m)

/-- The per-(sector, year) aggregate state stored by `MarketStudy.__init__`. -/
structure MarketAgg where
  TotalMarket_TWh : ℚ
  AddressedMarket_TWh : List (List PyFloat)
  TotalMarketPen : List (List PyFloat)
  PrimaryEnergySavings_TWh : List (List PyFloat)
  PrimaryEnergySavings_Quads : List (List PyFloat)

/-- One (sector, year) iteration of `MarketStudy.__init__` over a list of
regions (the sector and year loops only replicate this structure across a
dictionary).  Per region: build the `SensitivityStudy`, read its total
generation, scale its max-market-penetration grid, and accumulate with the
`if TotalMarket == 0` branch.  After the region loop: the penetration grid
divides by the total (a NumPy scalar division producing NaN/inf on a zero
total), and the primary-energy-savings grids use the effective-efficiency
grid of the variable `region`, which still holds the last iterated region;
with an empty region list that variable was never bound and Python raises
`NameError`. -/
noncomputable def MarketStudy (np_irr : List ℚ → Except Unit PyFloat)
    (regions : List RegionYearData) (x_param_name : String) (xs : List ℚ)
    (y_param_name : String) (ys : List ℚ) (p : NominalParams)
    (grid_baseline_elec_efficiency : ℚ) : Except String MarketAgg := do
  let contribs ← listMapE (fun rd => do
      let st ← SensitivityStudy.init rd x_param_name xs y_param_name ys p
      let mmp ← st.get_val_metric np_irr ValMetric.MaxMarketPen
      Except.ok (st.NetGeneration_TWh, mmp)) regions
  let acc := marketFold ys.length xs.length contribs
  match regions.getLast? with
  | none => Except.error "NameError"
  | some lastRd => do
      let lastSt ← SensitivityStudy.init lastRd x_param_name xs y_param_name ys p
      let eff ← lastSt.get_val_metric np_irr ValMetric.Effective_Electric_Efficiency
      let pes := gridZip PyFloat.mul
        (gridMap (fun a => PyFloat.div a
          (PyFloat.fin ((grid_baseline_elec_efficiency : ℚ) : ℝ))) acc.2)
        (gridMap (fun e => PyFloat.sub (PyFloat.fin 1)
          (PyFloat.div (PyFloat.fin ((grid_baseline_elec_efficiency : ℚ) : ℝ)) e)) eff)
      Except.ok
        { TotalMarket_TWh := acc.1
          AddressedMarket_TWh := acc.2
          TotalMarketPen :=
            gridMap (fun a => PyFloat.div a (PyFloat.fin ((acc.1 : ℚ) : ℝ))) acc.2
          PrimaryEnergySavings_TWh := pes
          PrimaryEnergySavings_Quads :=
            gridMap (fun a => PyFloat.div a (PyFloat.fin ((2931 / 10 : ℚ) : ℝ))) pes }

/-- The aggregate value `MarketStudy` produces when no cell raises, written
with the total helpers. -/
noncomputable def MarketAggOf (np_irr : List ℚ → Except Unit PyFloat)
    (regions : List RegionYearData) (xn : String) (xs : List ℚ) (yn : String)
    (ys : List ℚ) (p : NominalParams) (gbe : ℚ) : MarketAgg :=
  let acc := marketFold ys.length xs.length (regions.map fun rd =>
    (rd.net_generation_kWh / 1000000000,
      metricGrid np_irr ValMetric.MaxMarketPen rd xn xs yn ys p))
  let eff := metricGrid np_irr ValMetric.Effective_Electric_Efficiency
    (regions.getLast?.getD default) xn xs yn ys p
  let pes := gridZip PyFloat.mul
    (gridMap (fun a => PyFloat.div a (PyFloat.fin ((gbe : ℚ) : ℝ))) acc.2)
    (gridMap (fun e => PyFloat.sub (PyFloat.fin 1)
      (PyFloat.div (PyFloat.fin ((gbe : ℚ) : ℝ)) e)) eff)
  { TotalMarket_TWh := acc.1
    AddressedMarket_TWh := acc.2
    TotalMarketPen :=
      gridMap (fun a => PyFloat.div a (PyFloat.fin ((acc.1 : ℚ) : ℝ))) acc.2
    PrimaryEnergySavings_TWh := pes
    PrimaryEnergySavings_Quads :=
      gridMap (fun a => PyFloat.div a (PyFloat.fin ((2931 / 10 : ℚ) : ℝ))) pes }

/-- Specification-side definition (claim C4): the total market for a
(sector, year) as the plain sum over the regions of each region total net
generation in TWh. -/
def specTotalMarket (regions : List RegionYearData) : ℚ :=
  (regions.map fun rd => rd.net_generation_kWh / 1000000000).sum

/-- Specification-side definition (claim C4): the addressed market as the
element-wise sum over the regions of the region generation times that region
max-market-penetration grid. -/
noncomputable def specAddressedMarket (np_irr : List ℚ → Except Unit PyFloat)
    (regions : List RegionYearData) (xn : String) (xs : List ℚ) (yn : String)
    (ys : List ℚ) (p : NominalParams) : List (List PyFloat) :=
  sumGrids ys.length xs.length (regions.map fun rd =>
    gridScale (rd.net_generation_kWh / 1000000000)
      (metricGrid np_irr ValMetric.MaxMarketPen rd xn xs yn ys p))

/-- A concrete IRR oracle that always fails to converge (raises ValueError in
NumPy terms). -/
def np_irr_fail : List ℚ → Except Unit PyFloat := fun _ => Except.error ()

/-- A concrete IRR oracle that always returns 0. -/
def np_irr_const0 : List ℚ → Except Unit PyFloat := fun _ => Except.ok (PyFloat.fin 0)

/-- Pure rational value of `npvAux` when the discount factor base is
nonzero (helper for proofs). -/
def npvQaux (rate : ℚ) : ℕ → List ℚ → ℚ
  | _, [] => 0
  | i, v :: vs => v / (1 + rate) ^ i + npvQaux rate (i + 1) vs

/-- The concrete C1 counterexample input: its effective-efficiency
denominator is exactly zero. -/
def inpC1 : DGIn :=
  ⟨7/10, 9/10, 3, 1/50, 1, 17/20, 17/20, 9/10, 1/50, 3/20, 1/10, 1/25, []⟩

/-- Region data used in the aggregation examples: a profitable region (high
electricity rate) with 3 TWh of generation. -/
def regA : RegionYearData := ⟨61/50, 1/10, 3000000000⟩

/-- An unprofitable region with negative (-3 TWh) net generation. -/
def regB : RegionYearData := ⟨0, 1/10, -3000000000⟩

/-- An unprofitable region with 7 TWh of generation. -/
def regC : RegionYearData := ⟨0, 1/10, 7000000000⟩

/-- Nominal parameters used in the aggregation examples (life of one year,
zero inflation and discount, full electric utilization). -/
def npMk : NominalParams := ⟨1/2, 0, 876/100, 1/50, 1, 1, 1/4, 9/10, 0, 0⟩

/-- The market-penetration value of a one-year payback under a one-year
life. -/
noncomputable def mmpA : ℝ :=
  (0.3193 : ℝ) / Real.sqrt (2 * Real.pi) / 0.1274 *
    Real.exp (-((1 : ℝ) / ((1 : ℕ) : ℝ) / 0.1274) ^ 2 / 2)

/-- A region with zero net generation. -/
def regZ : RegionYearData := ⟨0, 1/10, 0⟩

@[simp] theorem PyFloat.add_fin_fin (a b : ℝ) : add (fin a) (fin b) = fin (a + b) := rfl

@[simp] theorem PyFloat.mul_fin_fin (a b : ℝ) : mul (fin a) (fin b) = fin (a * b) := rfl

@[simp] theorem PyFloat.sub_fin_fin (a b : ℝ) : sub (fin a) (fin b) = fin (a + -b) := rfl

@[simp] theorem PyFloat.neg_fin (a : ℝ) : neg (fin a) = fin (-a) := rfl

theorem PyFloat.div_fin_fin_of_ne (a : ℝ) {b : ℝ} (hb : b ≠ 0) :
    div (fin a) (fin b) = fin (a / b) := by
  simp [div, hb]

@[simp] theorem PyFloat.div_fin_zero_zero : div (fin 0) (fin 0) = nan := by
  simp [div]

theorem PyFloat.div_fin_zero_pos {a : ℝ} (ha : 0 < a) : div (fin a) (fin 0) = inf := by
  simp [div, ha.ne', ha]

theorem PyFloat.div_fin_zero_neg {a : ℝ} (ha : a < 0) : div (fin a) (fin 0) = ninf := by
  simp [div, ha.ne, ha, asymm ha]

@[simp] theorem PyFloat.add_fin_zero_left (x : PyFloat) : add (fin 0) x = x := by
  cases x <;> simp [add]

@[simp] theorem PyFloat.mul_fin_zero_fin (b : ℝ) : mul (fin 0) (fin b) = fin 0 := by
  simp

theorem pydiv_ok (a : ℚ) {b : ℚ} (hb : b ≠ 0) : pydiv a b = Except.ok (a / b) := by
  simp [pydiv, hb]

@[simp] theorem okBind {ε α β : Type} (x : α) (f : α → Except ε β) :
    (Except.ok x : Except ε α) >>= f = f x := rfl

@[simp] theorem errorBind {ε α β : Type} (e : ε) (f : α → Except ε β) :
    (Except.error e : Except ε α) >>= f = Except.error e := rfl

theorem CashFlows_ok {inp : DGIn} (he : inp.electric_efficiency ≠ 0)
    (hb : inp.baseline_thermal_efficiency ≠ 0)
    (hu : inp.elec_capacity_utilization ≠ 0) (hl : 1 ≤ inp.life_yrs) :
    CashFlows_dol_kWh inp = Except.ok (cashFlowsQ inp) := by
  have hl0 : inp.life_yrs ≠ 0 := by omega
  simp only [CashFlows_dol_kWh, pydiv_ok _ hu, pydiv_ok _ he, pydiv_ok _ hb,
    if_neg hl0, okBind]
  rfl

theorem EffEff_ok {inp : DGIn} (hb : inp.baseline_thermal_efficiency ≠ 0)
    (hu : inp.elec_capacity_utilization ≠ 0) (hd : effDen inp ≠ 0) :
    Effective_Electric_Efficiency inp = Except.ok (effEffQ inp) := by
  have hd' : 1 - inp.thermal_efficiency / inp.baseline_thermal_efficiency *
      inp.therm_capacity_utilization / inp.elec_capacity_utilization ≠ 0 := by
    simpa [effDen] using hd
  simp only [Effective_Electric_Efficiency, pydiv_ok _ hb, okBind,
    pydiv_ok _ hu, pydiv_ok _ hd']
  rfl

theorem LCOE_ok {inp : DGIn} (he : inp.electric_efficiency ≠ 0)
    (hb : inp.baseline_thermal_efficiency ≠ 0)
    (hu : inp.elec_capacity_utilization ≠ 0) :
    LCOE inp = Except.ok (PyFloat.sub
      (PyFloat.add
        (PyFloat.add
          (PyFloat.div
            (PyFloat.fin ((inp.installed_price_dol_W * 1000 / 8760 /
              inp.elec_capacity_utilization : ℚ) : ℝ)) (DF inp))
          (PyFloat.fin ((inp.ng_rate_dol_kWh / inp.electric_efficiency : ℚ) : ℝ)))
        (PyFloat.fin ((inp.maint_cost_dol_kWh : ℚ) : ℝ)))
      (PyFloat.fin ((inp.ng_rate_dol_kWh * inp.thermal_efficiency /
        inp.electric_efficiency / inp.baseline_thermal_efficiency *
        inp.therm_capacity_utilization : ℚ) : ℝ))) := by
  simp only [LCOE, pydiv_ok _ hu, pydiv_ok _ he, pydiv_ok _ hb, okBind]

/-- On a valid input, `DGValProp.out` returns normally with the explicit
output value `DGOutOf`. -/
theorem out_ok (np_irr : List ℚ → Except Unit PyFloat) {inp : DGIn}
    (h : inp.valid) :
    DGValProp.out np_irr inp = Except.ok (DGOutOf np_irr inp) := by
  obtain ⟨he, hb, hu, hl, hd⟩ := h
  have hget1 : (cashFlowsQ inp).get? 1 = some (opCF inp 1) := by
    obtain ⟨n, hn⟩ : ∃ n, inp.life_yrs = n + 1 := ⟨inp.life_yrs - 1, by omega⟩
    simp [cashFlowsQ, hn, List.range_succ_eq_map]
  simp only [DGValProp.out, CashFlows_ok he hb hu hl, okBind,
    show (cashFlowsQ inp).get? 0 = some (CF0q inp) from rfl, hget1,
    LCOE_ok he hb hu, EffEff_ok hb hu hd]
  rfl

theorem listMapE_congr {α β : Type} {f g : α → Except String β} {l : List α}
    (h : ∀ a ∈ l, f a = g a) : listMapE f l = listMapE g l := by
  induction l with
  | nil => rfl
  | cons a as ih =>
      simp only [listMapE, h a (by simp)]
      rw [ih (fun x hx => h x (by simp [hx]))]

theorem listMapE_map {α β : Type} (f : α → Except String β) (g : α → β)
    {l : List α} (h : ∀ a ∈ l, f a = Except.ok (g a)) :
    listMapE f l = Except.ok (l.map g) := by
  induction l with
  | nil => rfl
  | cons a as ih =>
      simp only [listMapE, h a (by simp), okBind,
        ih (fun x hx => h x (by simp [hx])), List.map_cons]

theorem listMapE_ok_length {α β : Type} {f : α → Except String β} {l : List α}
    {l' : List β} (h : listMapE f l = Except.ok l') : l'.length = l.length := by
  induction l generalizing l' with
  | nil => cases h; rfl
  | cons a as ih =>
      simp only [listMapE] at h
      cases hfa : f a with
      | error e => rw [hfa] at h; simp at h
      | ok b =>
          rw [hfa, okBind] at h
          cases hrest : listMapE f as with
          | error e => rw [hrest] at h; simp at h
          | ok bs =>
              rw [hrest, okBind] at h
              cases h
              simp [ih hrest]

theorem listMapE_ok_get {α β : Type} {f : α → Except String β} {l : List α}
    {l' : List β} (h : listMapE f l = Except.ok l') :
    ∀ k (hk : k < l.length) (hk' : k < l'.length),
      f (l.get ⟨k, hk⟩) = Except.ok (l'.get ⟨k, hk'⟩) := by
  induction l generalizing l' with
  | nil => intro k hk; exact absurd hk (by simp)
  | cons a as ih =>
      simp only [listMapE] at h
      cases hfa : f a with
      | error e => rw [hfa] at h; simp at h
      | ok b =>
          rw [hfa, okBind] at h
          cases hrest : listMapE f as with
          | error e => rw [hrest] at h; simp at h
          | ok bs =>
              rw [hrest, okBind] at h
              cases h
              intro k hk hk'
              cases k with
              | zero => simpa using hfa
              | succ n =>
                  exact ih hrest n (by simpa using hk) (by simpa using hk')

theorem get_val_metric_ok (np_irr : List ℚ → Except Unit PyFloat)
    {data : RegionYearData} {xn : String} {xs : List ℚ} {yn : String}
    {ys : List ℚ} {p : NominalParams} {st : SensitivityStudy}
    (hst : SensitivityStudy.init data xn xs yn ys p = Except.ok st)
    (metric : ValMetric)
    (hval : ∀ x ∈ xs, ∀ y ∈ ys, (studyCell data xn x yn y p).valid) :
    st.get_val_metric np_irr metric =
      Except.ok (metricGrid np_irr metric data xn xs yn ys p) := by
  have hst' : st = ⟨xs, ys, data.net_generation_kWh / 1000000000,
      ys.map fun y => xs.map fun x => studyCell data xn x yn y p⟩ := by
    cases hst
    rfl
  subst hst'
  unfold SensitivityStudy.get_val_metric metricGrid
  dsimp only
  rw [listMapE_map _
    (fun row => row.map (fun inp => (DGOutOf np_irr inp).getattr metric)) ?_]
  · simp [List.map_map, Function.comp]
  · intro row hrow
    simp only [List.mem_map] at hrow
    obtain ⟨y, hy, rfl⟩ := hrow
    refine listMapE_map _ _ ?_
    intro inp hinp
    simp only [List.mem_map] at hinp
    obtain ⟨x, hx, rfl⟩ := hinp
    rw [out_ok np_irr (hval x hx y hy)]
    rfl

/-- On a nonempty region list whose study cells are all valid, `MarketStudy`
returns normally with the explicit aggregate `MarketAggOf`. -/
theorem MarketStudy_ok (np_irr : List ℚ → Except Unit PyFloat)
    {regions : List RegionYearData} {xn : String} {xs : List ℚ} {yn : String}
    {ys : List ℚ} {p : NominalParams} {gbe : ℚ} (hne : regions ≠ [])
    (hval : ∀ rd ∈ regions, ∀ x ∈ xs, ∀ y ∈ ys, (studyCell rd xn x yn y p).valid) :
    MarketStudy np_irr regions xn xs yn ys p gbe =
      Except.ok (MarketAggOf np_irr regions xn xs yn ys p gbe) := by
  have hcontrib : listMapE (fun rd => do
      let st ← SensitivityStudy.init rd xn xs yn ys p
      let mmp ← st.get_val_metric np_irr ValMetric.MaxMarketPen
      Except.ok (st.NetGeneration_TWh, mmp)) regions =
      Except.ok (regions.map fun rd =>
        (rd.net_generation_kWh / 1000000000,
          metricGrid np_irr ValMetric.MaxMarketPen rd xn xs yn ys p)) := by
    refine listMapE_map _ _ ?_
    intro rd hrd
    simp only [SensitivityStudy.init, okBind]
    rw [get_val_metric_ok np_irr rfl ValMetric.MaxMarketPen (hval rd hrd), okBind]
  obtain ⟨lastRd, hlast⟩ : ∃ lastRd, regions.getLast? = some lastRd := by
    cases regions with
    | nil => exact absurd rfl hne
    | cons a as => exact ⟨(a :: as).getLast (by simp), List.getLast?_eq_getLast _ _⟩
  have hlastmem : lastRd ∈ regions := by
    have := List.getLast?_eq_getLast regions hne
    rw [this] at hlast
    cases hlast
    exact List.getLast_mem hne
  unfold MarketStudy
  rw [hcontrib, okBind, hlast]
  simp only [SensitivityStudy.init, okBind]
  rw [get_val_metric_ok np_irr rfl ValMetric.Effective_Electric_Efficiency
    (hval lastRd hlastmem), okBind]
  unfold MarketAggOf
  rw [hlast]
  rfl

theorem zipWith_add_zero_row : ∀ (row : List PyFloat),
    List.zipWith PyFloat.add (List.replicate row.length (PyFloat.fin 0)) row = row := by
  intro row
  induction row with
  | nil => rfl
  | cons v vs ih => simp [List.replicate_succ, ih]

theorem gridZip_add_zeroGrid {g : List (List PyFloat)} {n m : ℕ}
    (h : gridShape g n m) : gridZip PyFloat.add (zeroGrid n m) g = g := by
  obtain ⟨hlen, hrow⟩ := h
  subst hlen
  induction g with
  | nil => rfl
  | cons row rows ih =>
      have hr : row.length = m := hrow row (by simp)
      simp only [zeroGrid, List.length_cons, List.replicate_succ, gridZip,
        List.zipWith_cons_cons]
      have h1 : List.zipWith PyFloat.add (List.replicate m (PyFloat.fin 0)) row = row := by
        rw [← hr]
        exact zipWith_add_zero_row row
      rw [h1]
      have := ih (fun r hrm => hrow r (by simp [hrm]))
      simpa [zeroGrid, gridZip] using this

theorem gridScale_zero {g : List (List PyFloat)} {n m : ℕ}
    (hs : gridShape g n m) (hf : gridAllFin g) : gridScale 0 g = zeroGrid n m := by
  obtain ⟨hlen, hrow⟩ := hs
  subst hlen
  induction g with
  | nil => rfl
  | cons row rows ih =>
      simp only [gridScale, gridMap, List.map_cons, zeroGrid, List.length_cons,
        List.replicate_succ]
      congr 1
      · have hr : row.length = m := hrow row (by simp)
        rw [List.eq_replicate_iff]
        refine ⟨by simp [hr], ?_⟩
        intro b hb
        simp only [List.mem_map] at hb
        obtain ⟨v, hv, rfl⟩ := hb
        obtain ⟨x, rfl⟩ := hf row (by simp) v hv
        simp
      · have := ih (fun r hrm v hv => hf r (List.mem_cons_of_mem _ hrm) v hv)
          (fun r hrm => hrow r (List.mem_cons_of_mem _ hrm))
        simpa [gridScale, gridMap, zeroGrid] using this

theorem gridScale_shape (c : ℚ) {g : List (List PyFloat)} {n m : ℕ}
    (h : gridShape g n m) : gridShape (gridScale c g) n m := by
  obtain ⟨hlen, hrow⟩ := h
  refine ⟨by simp [gridScale, gridMap, hlen], ?_⟩
  intro row hmem
  simp only [gridScale, gridMap, List.mem_map] at hmem
  obtain ⟨r, hr, rfl⟩ := hmem
  simp [hrow r hr]

theorem gridZip_add_shape {a b : List (List PyFloat)} {n m : ℕ}
    (ha : gridShape a n m) (hb : gridShape b n m) :
    gridShape (gridZip PyFloat.add a b) n m := by
  obtain ⟨hal, har⟩ := ha
  obtain ⟨hbl, hbr⟩ := hb
  subst hal
  refine ⟨by simp [gridZip, hbl], ?_⟩
  induction a generalizing b with
  | nil => intro row hmem; simp [gridZip] at hmem
  | cons ra ras ih =>
      cases b with
      | nil => intro row hmem; simp [gridZip] at hmem
      | cons rb rbs =>
          intro row hmem
          simp only [gridZip, List.zipWith_cons_cons, List.mem_cons] at hmem
          rcases hmem with h | h
          · subst h
            simp [List.length_zipWith, har ra (by simp), hbr rb (by simp)]
          · exact ih (fun r hr => har r (List.mem_cons_of_mem _ hr))
              (fun r hr => hbr r (List.mem_cons_of_mem _ hr))
              (by simpa using hbl) row (by simpa [gridZip] using h)

theorem marketFoldAux {n m : ℕ} :
    ∀ (contribs : List (ℚ × List (List PyFloat))) (t : ℚ) (A : List (List PyFloat)),
    (∀ gm ∈ contribs, 0 ≤ gm.1) →
    (∀ gm ∈ contribs, gridShape gm.2 n m) →
    (∀ gm ∈ contribs, gridAllFin gm.2) →
    0 ≤ t → gridShape A n m → (t = 0 → A = zeroGrid n m) →
    contribs.foldl
      (fun acc gm =>
        if acc.1 = 0 then (gm.1, gridScale gm.1 gm.2)
        else (acc.1 + gm.1, gridZip PyFloat.add acc.2 (gridScale gm.1 gm.2)))
      (t, A) =
    (t + (contribs.map Prod.fst).sum,
      contribs.foldl (fun acc gm => gridZip PyFloat.add acc (gridScale gm.1 gm.2)) A) := by
  intro contribs
  induction contribs with
  | nil => intro t A _ _ _ _ _ _; simp
  | cons gm rest ih =>
      intro t A hg hs hf ht hA hzero
      have hg0 : 0 ≤ gm.1 := hg gm (by simp)
      have hs0 : gridShape gm.2 n m := hs gm (by simp)
      have hf0 : gridAllFin gm.2 := hf gm (by simp)
      have hgrest : ∀ x ∈ rest, 0 ≤ x.1 := fun x hx => hg x (by simp [hx])
      have hsrest : ∀ x ∈ rest, gridShape x.2 n m := fun x hx => hs x (by simp [hx])
      have hfrest : ∀ x ∈ rest, gridAllFin x.2 := fun x hx => hf x (by simp [hx])
      simp only [List.foldl_cons, List.map_cons, List.sum_cons]
      by_cases h0 : t = 0
      · rw [if_pos h0]
        have hAz : A = zeroGrid n m := hzero h0
        rw [ih gm.1 (gridScale gm.1 gm.2) hgrest hsrest hfrest hg0
          (gridScale_shape _ hs0)
          (fun hz => by rw [hz] at *; exact gridScale_zero hs0 hf0)]
        subst hAz
        rw [gridZip_add_zeroGrid (gridScale_shape _ hs0)]
        rw [Prod.mk.injEq]
        refine ⟨?_, rfl⟩
        rw [h0]
        ring
      · rw [if_neg h0]
        have htpos : 0 < t := lt_of_le_of_ne ht (Ne.symm h0)
        have hsum : 0 ≤ t + gm.1 := by linarith
        have hne : t + gm.1 ≠ 0 := by positivity
        rw [ih (t + gm.1) (gridZip PyFloat.add A (gridScale gm.1 gm.2)) hgrest
          hsrest hfrest hsum (gridZip_add_shape hA (gridScale_shape _ hs0))
          (fun hz => absurd hz hne)]
        rw [Prod.mk.injEq]
        refine ⟨?_, rfl⟩
        ring

/-- The accumulation loop equals the plain weighted sum when every weight is
nonnegative and every grid is finite and well shaped. -/
theorem marketFold_eq_sum {n m : ℕ} {contribs : List (ℚ × List (List PyFloat))}
    (hg : ∀ gm ∈ contribs, 0 ≤ gm.1)
    (hs : ∀ gm ∈ contribs, gridShape gm.2 n m)
    (hf : ∀ gm ∈ contribs, gridAllFin gm.2) :
    marketFold n m contribs =
      ((contribs.map Prod.fst).sum,
        sumGrids n m (contribs.map fun gm => gridScale gm.1 gm.2)) := by
  unfold marketFold sumGrids
  rw [marketFoldAux contribs 0 (zeroGrid n m) hg hs hf le_rfl
    ⟨by simp [zeroGrid], fun row hrow => by
      rw [List.eq_of_mem_replicate hrow]; simp⟩ (fun _ => rfl)]
  rw [List.foldl_map]
  simp

theorem MMP_fin {life : ℕ} (hl : life ≠ 0) (PB : PyFloat) :
    ∃ x, Maximum_Market_Penetration life PB = PyFloat.fin x := by
  cases PB with
  | fin x =>
      by_cases h : 0 ≤ x
      · refine ⟨(0.3193 : ℝ) / Real.sqrt (2 * Real.pi) / 0.1274 *
          Real.exp (-(x / (life : ℝ) / 0.1274) ^ 2 / 2), ?_⟩
        simp [Maximum_Market_Penetration, h, hl]
      · exact ⟨0, by simp [Maximum_Market_Penetration, h]⟩
  | inf => exact ⟨0, rfl⟩
  | ninf => exact ⟨0, rfl⟩
  | nan => exact ⟨0, rfl⟩

theorem metricGrid_shape (np_irr : List ℚ → Except Unit PyFloat)
    (metric : ValMetric) (data : RegionYearData) (xn : String) (xs : List ℚ)
    (yn : String) (ys : List ℚ) (p : NominalParams) :
    gridShape (metricGrid np_irr metric data xn xs yn ys p) ys.length xs.length := by
  refine ⟨by simp [metricGrid], ?_⟩
  intro row hrow
  simp only [metricGrid, List.mem_map] at hrow
  obtain ⟨y, hy, rfl⟩ := hrow
  simp

theorem metricGrid_MMP_allFin (np_irr : List ℚ → Except Unit PyFloat)
    {data : RegionYearData} {xn : String} {xs : List ℚ} {yn : String}
    {ys : List ℚ} {p : NominalParams}
    (hval : ∀ x ∈ xs, ∀ y ∈ ys, (studyCell data xn x yn y p).valid) :
    gridAllFin (metricGrid np_irr ValMetric.MaxMarketPen data xn xs yn ys p) := by
  intro row hrow v hv
  simp only [metricGrid, List.mem_map] at hrow
  obtain ⟨y, hy, rfl⟩ := hrow
  simp only [List.mem_map] at hv
  obtain ⟨x, hx, rfl⟩ := hv
  have hlife : (studyCell data xn x yn y p).life_yrs ≠ 0 := by
    have := (hval x hx y hy).2.2.2.1
    omega
  exact MMP_fin hlife _

theorem list_sum_zero_of_nonneg {l : List ℚ} (h : ∀ x ∈ l, 0 ≤ x)
    (hs : l.sum = 0) : ∀ x ∈ l, x = 0 := by
  induction l with
  | nil => simp
  | cons a as ih =>
      simp only [List.sum_cons] at hs
      have ha : 0 ≤ a := h a (by simp)
      have has : 0 ≤ as.sum :=
        List.sum_nonneg (fun x hx => h x (List.mem_cons_of_mem _ hx))
      have ha0 : a = 0 := by linarith
      have hs0 : as.sum = 0 := by linarith
      intro x hx
      rcases List.mem_cons.mp hx with rfl | hx
      · exact ha0
      · exact ih (fun z hz => h z (List.mem_cons_of_mem _ hz)) hs0 x hx

theorem zeroGrid_shape (n m : ℕ) : gridShape (zeroGrid n m) n m := by
  refine ⟨by simp [zeroGrid], ?_⟩
  intro row hrow
  rw [List.eq_of_mem_replicate hrow]
  simp

theorem sumGrids_all_zero {n m : ℕ} {gs : List (List (List PyFloat))}
    (h : ∀ g ∈ gs, g = zeroGrid n m) : sumGrids n m gs = zeroGrid n m := by
  unfold sumGrids
  induction gs with
  | nil => rfl
  | cons g rest ih =>
      rw [List.foldl_cons, h g (by simp),
        gridZip_add_zeroGrid (zeroGrid_shape n m)]
      exact ih (fun z hz => h z (List.mem_cons_of_mem _ hz))

/-- C10 (frame effect of `set_spread`): the two rate attributes take the
values from the regional record and every other attribute of the instance is
unchanged. -/
theorem set_spread_frame (inp : DGIn) (d : RegionYearData) :
    (inp.set_spread d).elec_rate_dol_kWh = d.elec_rate_dol_kWh ∧
    (inp.set_spread d).ng_rate_dol_kWh = d.ng_rate_dol_kWh ∧
    (inp.set_spread d).electric_efficiency = inp.electric_efficiency ∧
    (inp.set_spread d).thermal_efficiency = inp.thermal_efficiency ∧
    (inp.set_spread d).installed_price_dol_W = inp.installed_price_dol_W ∧
    (inp.set_spread d).maint_cost_dol_kWh = inp.maint_cost_dol_kWh ∧
    (inp.set_spread d).life_yrs = inp.life_yrs ∧
    (inp.set_spread d).elec_capacity_utilization = inp.elec_capacity_utilization ∧
    (inp.set_spread d).therm_capacity_utilization = inp.therm_capacity_utilization ∧
    (inp.set_spread d).baseline_thermal_efficiency = inp.baseline_thermal_efficiency ∧
    (inp.set_spread d).inflation_rate = inp.inflation_rate ∧
    (inp.set_spread d).discount_rate = inp.discount_rate ∧
    (inp.set_spread d).extra = inp.extra :=
  ⟨rfl, rfl, rfl, rfl, rfl, rfl, rfl, rfl, rfl, rfl, rfl, rfl, rfl⟩

/-- C9: when `thermal_efficiency = 0` and the utilization and baseline values
are positive, the computed effective electric efficiency equals
`electric_efficiency` exactly. -/
theorem effective_efficiency_reduces_to_electric (inp : DGIn)
    (hte : inp.thermal_efficiency = 0)
    (hb : 0 < inp.baseline_thermal_efficiency)
    (hu : 0 < inp.elec_capacity_utilization) :
    Effective_Electric_Efficiency inp = Except.ok inp.electric_efficiency := by
  have hd : effDen inp ≠ 0 := by
    simp [effDen, hte]
  rw [EffEff_ok hb.ne' hu.ne' hd]
  simp [effEffQ, effDen, hte]

/-- C9 witness at a concrete input. -/
theorem effective_efficiency_reduces_to_electric_witness :
    Effective_Electric_Efficiency
      ⟨7/10, 0, 3, 1/50, 20, 17/20, 1/4, 9/10, 1/50, 3/20, 1/10, 1/25, []⟩ =
      Except.ok (7/10) :=
  effective_efficiency_reduces_to_electric _ rfl (by norm_num) (by norm_num)

/-- C3: for any positive `life_yrs`, the maximum market penetration of a
finite real payback is exactly 0 when the payback is negative, equals
`A/(sigma*sqrt(2*pi)) * exp(-(PB/life_yrs/sigma)^2/2)` with `A = 0.3193` and
`sigma = 0.1274` when the payback is nonnegative, and the returned value
always lies in the interval [0, 1]. -/
theorem mmp_formula_and_range (life_yrs : ℕ) (x : ℝ) (hl : 0 < life_yrs) :
    (x < 0 → Maximum_Market_Penetration life_yrs (PyFloat.fin x) = PyFloat.fin 0) ∧
    (0 ≤ x → Maximum_Market_Penetration life_yrs (PyFloat.fin x) =
      PyFloat.fin ((0.3193 : ℝ) / (0.1274 * Real.sqrt (2 * Real.pi)) *
        Real.exp (-(x / (life_yrs : ℝ) / 0.1274) ^ 2 / 2))) ∧
    (∀ y : ℝ, Maximum_Market_Penetration life_yrs (PyFloat.fin x) = PyFloat.fin y →
      0 ≤ y ∧ y ≤ 1) := by
  have hl0 : life_yrs ≠ 0 := hl.ne'
  have hformula : (0.3193 : ℝ) / Real.sqrt (2 * Real.pi) / 0.1274 =
      (0.3193 : ℝ) / (0.1274 * Real.sqrt (2 * Real.pi)) := by
    rw [div_div, mul_comm]
  have hcoef : (0.3193 : ℝ) / Real.sqrt (2 * Real.pi) / 0.1274 ≤ 1 := by
    rw [div_div, div_le_one (by positivity)]
    have hs : (0.3193 : ℝ) / 0.1274 ≤ Real.sqrt (2 * Real.pi) := by
      rw [Real.le_sqrt' (by norm_num)]
      nlinarith [Real.pi_gt_d6]
    calc (0.3193 : ℝ) = 0.3193 / 0.1274 * 0.1274 := by norm_num
      _ ≤ Real.sqrt (2 * Real.pi) * 0.1274 := by nlinarith
  refine ⟨?_, ?_, ?_⟩
  · intro hneg
    simp [Maximum_Market_Penetration, not_le.mpr hneg]
  · intro hpos
    simp only [Maximum_Market_Penetration, if_pos hpos, if_neg hl0]
    rw [hformula]
  · intro y hy
    by_cases hpos : 0 ≤ x
    · simp only [Maximum_Market_Penetration, if_pos hpos, if_neg hl0,
        PyFloat.fin.injEq] at hy
      subst hy
      constructor
      · positivity
      · have hexp : Real.exp (-(x / (life_yrs : ℝ) / 0.1274) ^ 2 / 2) ≤ 1 := by
          rw [Real.exp_le_one_iff]
          have : 0 ≤ (x / (life_yrs : ℝ) / 0.1274) ^ 2 := sq_nonneg _
          linarith
        have hnn : (0 : ℝ) ≤ Real.exp (-(x / (life_yrs : ℝ) / 0.1274) ^ 2 / 2) :=
          (Real.exp_pos _).le
        nlinarith [Real.sqrt_nonneg (2 * Real.pi),
          Real.sqrt_pos.mpr (by positivity : (0 : ℝ) < 2 * Real.pi)]
    · simp only [Maximum_Market_Penetration, if_neg hpos, PyFloat.fin.injEq] at hy
      subst hy
      norm_num

/-- C3 witness at `life_yrs = 20`, payback 1. -/
theorem mmp_formula_and_range_witness :
    ((1 : ℝ) < 0 → Maximum_Market_Penetration 20 (PyFloat.fin 1) = PyFloat.fin 0) ∧
    ((0 : ℝ) ≤ 1 → Maximum_Market_Penetration 20 (PyFloat.fin 1) =
      PyFloat.fin ((0.3193 : ℝ) / (0.1274 * Real.sqrt (2 * Real.pi)) *
        Real.exp (-((1 : ℝ) / (20 : ℕ) / 0.1274) ^ 2 / 2))) ∧
    (∀ y : ℝ, Maximum_Market_Penetration 20 (PyFloat.fin 1) = PyFloat.fin y →
      0 ≤ y ∧ y ≤ 1) :=
  mmp_formula_and_range 20 1 (by norm_num)

theorem setattr_unknown {name : String} (inp : DGIn) (v : ℚ)
    (h : name ∉ DGIn.attrNames) :
    inp.setattr name v = { inp with extra := (name, v) :: inp.extra } := by
  simp only [DGIn.attrNames, List.mem_cons, List.not_mem_nil, or_false,
    not_or] at h
  obtain ⟨h1, h2, h3, h4, h5, h6, h7, h8, h9, h10, h11, h12⟩ := h
  simp [DGIn.setattr, h1, h2, h3, h4, h5, h6, h7, h8, h9, h10, h11, h12]

/-- C2 counterexample: grid construction with an x parameter name that is not
an attribute of the inputs does not fail; the constructor returns normally,
and the unknown name is silently recorded as a new dynamic attribute on the
cell while every declared field keeps its nominal/regional value. -/
theorem init_accepts_unknown_param_name :
    SensitivityStudy.init ⟨1/10, 1/25, 2000000000⟩ "not_a_field" [1]
      "installed_price_dol_W" [2] ⟨7/10, 0, 3, 1/50, 20, 17/20, 1/4, 9/10, 1/50, 3/20⟩ =
      Except.ok ⟨[1], [2], 2,
        [[⟨7/10, 0, 2, 1/50, 20, 17/20, 1/4, 9/10, 1/50, 3/20, 1/10, 1/25,
          [("not_a_field", 1)]⟩]]⟩ := by
  unfold SensitivityStudy.init
  congr 1
  rw [SensitivityStudy.mk.injEq]
  refine ⟨rfl, rfl, by norm_num, by rfl⟩

/-- C2 amended: for sweep parameter names that are not attributes of
`DGIn`, `SensitivityStudy.__init__` does not fail at build time (nor per
cell): it returns normally, the unknown names become dynamic attributes of
each cell, and all declared fields hold the nominal values with the regional
rates bound. -/
theorem init_unknown_param_name_silently_extends (data : RegionYearData)
    (xn : String) (xs : List ℚ) (yn : String) (ys : List ℚ) (p : NominalParams)
    (hx : xn ∉ DGIn.attrNames) (hy : yn ∉ DGIn.attrNames) :
    SensitivityStudy.init data xn xs yn ys p =
      Except.ok ⟨xs, ys, data.net_generation_kWh / 1000000000,
        ys.map fun y => xs.map fun x =>
          { p.toDGIn.set_spread data with extra := [(yn, y), (xn, x)] }⟩ := by
  have hcell : ∀ (x y : ℚ), studyCell data xn x yn y p =
      { p.toDGIn.set_spread data with extra := [(yn, y), (xn, x)] } := by
    intro x y
    unfold studyCell
    rw [setattr_unknown _ _ hx, setattr_unknown _ _ hy]
    rfl
  unfold SensitivityStudy.init
  congr 1
  simp only [hcell]

/-- C2 amended witness at concrete unknown names. -/
theorem init_unknown_param_name_silently_extends_witness :
    SensitivityStudy.init ⟨3/25, 1/20, 5000000000⟩ "bogus_x" [4] "bogus_y" [5]
      ⟨7/10, 0, 3, 1/50, 20, 17/20, 1/4, 9/10, 1/50, 3/20⟩ =
      Except.ok ⟨[4], [5], 5,
        [[⟨7/10, 0, 3, 1/50, 20, 17/20, 1/4, 9/10, 1/50, 3/20, 3/25, 1/20,
          [("bogus_y", 5), ("bogus_x", 4)]⟩]]⟩ := by
  rw [init_unknown_param_name_silently_extends _ _ _ _ _ _ (by decide) (by decide)]
  congr 1
  rw [SensitivityStudy.mk.injEq]
  refine ⟨rfl, rfl, by norm_num, by rfl⟩

/-- Pointwise reading of a successful effectful map, in terms of `get?`. -/
theorem listMapE_ok_get2 {α β : Type} {f : α → Except String β} {l : List α}
    {l' : List β} (h : listMapE f l = Except.ok l') :
    ∀ k a b, l.get? k = some a → l'.get? k = some b → f a = Except.ok b := by
  induction l generalizing l' with
  | nil => intro k a b ha; simp at ha
  | cons x xs ih =>
      simp only [listMapE] at h
      cases hfa : f x with
      | error e => rw [hfa] at h; simp at h
      | ok b0 =>
          rw [hfa, okBind] at h
          cases hrest : listMapE f xs with
          | error e => rw [hrest] at h; simp at h
          | ok bs =>
              rw [hrest, okBind] at h
              cases h
              intro k a b ha hb
              cases k with
              | zero =>
                  simp only [List.get?_cons_zero, Option.some.injEq] at ha hb
                  rw [← ha, ← hb]
                  exact hfa
              | succ n =>
                  simp only [List.get?_cons_succ] at ha hb
                  exact ih hrest n a b ha hb

/-- C8: for a study built with x values of length m and y values of length n,
any metric array that `get_val_metric` returns has n rows (one per y value,
in order) each of length m, and the entry at row j, column i is the requested
metric of the cell evaluated at x value i and y value j. -/
theorem metric_grid_shape_indexing (np_irr : List ℚ → Except Unit PyFloat)
    {data : RegionYearData} {xn : String} {xs : List ℚ} {yn : String}
    {ys : List ℚ} {p : NominalParams} {st : SensitivityStudy}
    {metric : ValMetric} {g : List (List PyFloat)}
    (hst : SensitivityStudy.init data xn xs yn ys p = Except.ok st)
    (hg : st.get_val_metric np_irr metric = Except.ok g) :
    g.length = ys.length ∧
    (∀ row ∈ g, row.length = xs.length) ∧
    (∀ j i row v x y, g.get? j = some row → row.get? i = some v →
      xs.get? i = some x → ys.get? j = some y →
      ∃ o, DGValProp.out np_irr (studyCell data xn x yn y p) = Except.ok o ∧
        v = o.getattr metric) := by
  have hst2 : st = ⟨xs, ys, data.net_generation_kWh / 1000000000,
      ys.map fun y => xs.map fun x => studyCell data xn x yn y p⟩ := by
    cases hst
    rfl
  subst hst2
  unfold SensitivityStudy.get_val_metric at hg
  dsimp only at hg
  have hlen : g.length = ys.length := by
    have := listMapE_ok_length hg
    simpa using this
  have hrowOf : ∀ j row y, g.get? j = some row → ys.get? j = some y →
      listMapE (fun inp => Except.map (fun o => o.getattr metric)
        (DGValProp.out np_irr inp)) (xs.map fun x => studyCell data xn x yn y p) =
        Except.ok row := by
    intro j row y hrow hy
    have hstudy : (ys.map fun y => xs.map fun x => studyCell data xn x yn y p).get? j =
        some (xs.map fun x => studyCell data xn x yn y p) := by
      rw [List.get?_map, hy]
      rfl
    exact listMapE_ok_get2 hg j _ _ hstudy hrow
  refine ⟨hlen, ?_, ?_⟩
  · intro row hrow
    obtain ⟨j, hj⟩ := List.mem_iff_get?.mp hrow
    have hjlt : j < ys.length := by
      obtain ⟨hlt, -⟩ := List.get?_eq_some.mp hj
      omega
    obtain ⟨y, hy⟩ : ∃ y, ys.get? j = some y := by
      rcases hys : ys.get? j with - | y
      · rw [List.get?_eq_none] at hys
        omega
      · exact ⟨y, rfl⟩
    have := listMapE_ok_length (hrowOf j row y hj hy)
    simpa using this
  · intro j i row v x y hrow hv hx hy
    have hinner := hrowOf j row y hrow hy
    have hxcell : (xs.map fun x => studyCell data xn x yn y p).get? i =
        some (studyCell data xn x yn y p) := by
      rw [List.get?_map, hx]
      rfl
    have hcellmap := listMapE_ok_get2 hinner i _ _ hxcell hv
    cases hout : DGValProp.out np_irr (studyCell data xn x yn y p) with
    | error e => rw [hout] at hcellmap; simp [Except.map] at hcellmap
    | ok o =>
        rw [hout] at hcellmap
        simp only [Except.map] at hcellmap
        cases hcellmap
        exact ⟨o, rfl, rfl⟩

/-- C8 witness: a concrete one-by-one study. -/
theorem metric_grid_shape_indexing_witness :
    ([[PyFloat.fin ((7/10 : ℚ) : ℝ)]].length = [(5 : ℚ)].length ∧
    (∀ row ∈ [[PyFloat.fin ((7/10 : ℚ) : ℝ)]], row.length = [(4 : ℚ)].length) ∧
    (∀ j i row v x y, [[PyFloat.fin ((7/10 : ℚ) : ℝ)]].get? j = some row →
      row.get? i = some v →
      [(4 : ℚ)].get? i = some x → [(5 : ℚ)].get? j = some y →
      ∃ o, DGValProp.out np_irr_const0
          (studyCell ⟨1/10, 1/25, 2000000000⟩ "installed_price_dol_W" x
            "maint_cost_dol_kWh" y ⟨7/10, 0, 3, 1/50, 20, 17/20, 1/4, 9/10, 1/50, 3/20⟩) =
          Except.ok o ∧ v = o.getattr ValMetric.Effective_Electric_Efficiency)) := by
  have hst : SensitivityStudy.init ⟨1/10, 1/25, 2000000000⟩ "installed_price_dol_W" [4]
      "maint_cost_dol_kWh" [5] ⟨7/10, 0, 3, 1/50, 20, 17/20, 1/4, 9/10, 1/50, 3/20⟩ =
      Except.ok ⟨[4], [5], 2000000000/1000000000,
        [[⟨7/10, 0, 4, 5, 20, 17/20, 1/4, 9/10, 1/50, 3/20, 1/10, 1/25, []⟩]]⟩ := rfl
  have hg : SensitivityStudy.get_val_metric np_irr_const0
      ⟨[4], [5], 2000000000/1000000000,
        [[⟨7/10, 0, 4, 5, 20, 17/20, 1/4, 9/10, 1/50, 3/20, 1/10, 1/25, []⟩]]⟩
      ValMetric.Effective_Electric_Efficiency =
      Except.ok [[PyFloat.fin ((7/10 : ℚ) : ℝ)]] := by
    have h := get_val_metric_ok np_irr_const0 hst
      ValMetric.Effective_Electric_Efficiency (by
        intro x hx y hy
        simp only [List.mem_singleton] at hx hy
        subst hx hy
        refine ⟨?_, ?_, ?_, ?_, ?_⟩ <;>
          · simp only [studyCell, DGIn.setattr, DGIn.set_spread,
              NominalParams.toDGIn, String.reduceEq, if_false, if_true,
              reduceIte]
            norm_num [effDen])
    rw [h]
    unfold metricGrid
    simp only [List.map_cons, List.map_nil, studyCell, DGIn.setattr,
      DGIn.set_spread, NominalParams.toDGIn, String.reduceEq, reduceIte,
      DGOutOf, DGOut.getattr]
    norm_num [effEffQ, effDen]
  exact metric_grid_shape_indexing np_irr_const0 hst hg

theorem npvAux_fin {rate : ℚ} (hr : (1 : ℚ) + rate ≠ 0) :
    ∀ (l : List ℚ) (i : ℕ) (s : ℝ),
    npvAux rate i l (PyFloat.fin s) = PyFloat.fin (s + ((npvQaux rate i l : ℚ) : ℝ)) := by
  intro l
  induction l with
  | nil => intro i s; simp [npvAux, npvQaux]
  | cons v vs ih =>
      intro i s
      have hrr : ((1 + rate : ℚ) : ℝ) ≠ 0 := by exact_mod_cast hr
      have hpow : (((1 + rate : ℚ) : ℝ)) ^ i ≠ 0 := pow_ne_zero _ hrr
      simp only [npvAux, PyFloat.div_fin_fin_of_ne _ hpow, PyFloat.add_fin_fin,
        npvQaux]
      rw [ih]
      congr 1
      push_cast
      ring

theorem np_npv_fin {rate : ℚ} (hr : (1 : ℚ) + rate ≠ 0) (l : List ℚ) :
    np_npv rate l = PyFloat.fin ((npvQaux rate 0 l : ℚ) : ℝ) := by
  unfold np_npv
  rw [npvAux_fin hr]
  norm_num

/-- C5 counterexample: a valid scenario with a negative first-year operating
cash flow (electricity rate 0).  Raising the installed price from 8.76 to
twice that value makes the computed payback strictly smaller (it moves from
-50/11 to -100/11 years), refuting the claim that the payback period strictly
increases with installed price for every valid input. -/
theorem payback_not_increasing_in_price :
    (DGValProp.out np_irr_const0
        ⟨1/2, 0, 876/100, 1/50, 1, 1, 1/4, 9/10, 0, 0, 0, 1/10, []⟩).map
      DGOut.PB_yrs = Except.ok (PyFloat.fin ((-50 : ℚ) / 11)) ∧
    (DGValProp.out np_irr_const0
        ⟨1/2, 0, 2 * (876/100), 1/50, 1, 1, 1/4, 9/10, 0, 0, 0, 1/10, []⟩).map
      DGOut.PB_yrs = Except.ok (PyFloat.fin ((-100 : ℚ) / 11)) ∧
    ((876 : ℚ)/100 < 2 * (876/100)) ∧
    ((-100 : ℚ) / 11 < (-50 : ℚ) / 11) := by
  have hv1 : (⟨1/2, 0, 876/100, 1/50, 1, 1, 1/4, 9/10, 0, 0, 0, 1/10, []⟩ : DGIn).valid := by
    refine ⟨?_, ?_, ?_, ?_, ?_⟩ <;> norm_num [effDen]
  have hv2 : (⟨1/2, 0, 2 * (876/100), 1/50, 1, 1, 1/4, 9/10, 0, 0, 0, 1/10, []⟩ : DGIn).valid := by
    refine ⟨?_, ?_, ?_, ?_, ?_⟩ <;> norm_num [effDen]
  rw [out_ok np_irr_const0 hv1, out_ok np_irr_const0 hv2]
  refine ⟨?_, ?_, by norm_num, by norm_num⟩
  · simp only [Except.map, DGOutOf, Except.ok.injEq]
    rw [show (-CF0q ⟨1/2, 0, 876/100, 1/50, 1, 1, 1/4, 9/10, 0, 0, 0, 1/10, []⟩ : ℚ) =
      1 from by norm_num [CF0q]]
    rw [show (opCF ⟨1/2, 0, 876/100, 1/50, 1, 1, 1/4, 9/10, 0, 0, 0, 1/10, []⟩ 1 : ℚ) =
      -11/50 from by norm_num [opCF]]
    rw [PyFloat.div_fin_fin_of_ne _ (by norm_num)]
    norm_num
  · simp only [Except.map, DGOutOf, Except.ok.injEq]
    rw [show (-CF0q ⟨1/2, 0, 2 * (876/100), 1/50, 1, 1, 1/4, 9/10, 0, 0, 0, 1/10, []⟩ : ℚ) =
      2 from by norm_num [CF0q]]
    rw [show (opCF ⟨1/2, 0, 2 * (876/100), 1/50, 1, 1, 1/4, 9/10, 0, 0, 0, 1/10, []⟩ 1 : ℚ) =
      -11/50 from by norm_num [opCF]]
    rw [PyFloat.div_fin_fin_of_ne _ (by norm_num)]
    norm_num

/-- C5 amended: on a valid input whose first-year operating cash flow is
positive, strictly increasing the installed price (all other fields fixed)
strictly decreases the computed NPV and strictly increases the computed
payback period.  When the first-year operating cash flow is negative the
payback strictly decreases instead (see the counterexample); the NPV part
needs no such condition. -/
theorem npv_decreases_payback_increases_in_price
    (np_irr : List ℚ → Except Unit PyFloat) (inp : DGIn) (p₁ p₂ : ℚ)
    (hval : inp.valid) (hu : 0 < inp.elec_capacity_utilization)
    (hr : inp.discount_rate ≠ -1) (hcf1 : 0 < opCF inp 1) (hp : p₁ < p₂) :
    ∃ (o₁ o₂ : DGOut) (n₁ n₂ b₁ b₂ : ℚ),
      DGValProp.out np_irr { inp with installed_price_dol_W := p₁ } = Except.ok o₁ ∧
      DGValProp.out np_irr { inp with installed_price_dol_W := p₂ } = Except.ok o₂ ∧
      o₁.NPV_dol_kWh = PyFloat.fin ((n₁ : ℚ) : ℝ) ∧
      o₂.NPV_dol_kWh = PyFloat.fin ((n₂ : ℚ) : ℝ) ∧ n₂ < n₁ ∧
      o₁.PB_yrs = PyFloat.fin ((b₁ : ℚ) : ℝ) ∧
      o₂.PB_yrs = PyFloat.fin ((b₂ : ℚ) : ℝ) ∧ b₁ < b₂ := by
  have h1r : (1 : ℚ) + inp.discount_rate ≠ 0 := fun h => hr (by linarith)
  have hval₁ : ({ inp with installed_price_dol_W := p₁ } : DGIn).valid := hval
  have hval₂ : ({ inp with installed_price_dol_W := p₂ } : DGIn).valid := hval
  have hcf0 : CF0q { inp with installed_price_dol_W := p₂ } <
      CF0q { inp with installed_price_dol_W := p₁ } := by
    show -(p₂ * 1000) / 8760 / inp.elec_capacity_utilization <
      -(p₁ * 1000) / 8760 / inp.elec_capacity_utilization
    rw [div_lt_div_right hu, div_lt_div_right (by norm_num : (0 : ℚ) < 8760)]
    linarith
  have hT : ∀ p : ℚ, npvQaux inp.discount_rate 0
      (cashFlowsQ { inp with installed_price_dol_W := p }) =
      CF0q { inp with installed_price_dol_W := p } +
      npvQaux inp.discount_rate 1
        ((List.range inp.life_yrs).map fun k => opCF inp (k + 1)) := by
    intro p
    show npvQaux inp.discount_rate 0
      (CF0q { inp with installed_price_dol_W := p } ::
        (List.range inp.life_yrs).map fun k => opCF inp (k + 1)) = _
    simp [npvQaux]
  refine ⟨_, _, npvQaux inp.discount_rate 0
      (cashFlowsQ { inp with installed_price_dol_W := p₁ }),
    npvQaux inp.discount_rate 0
      (cashFlowsQ { inp with installed_price_dol_W := p₂ }),
    (-CF0q { inp with installed_price_dol_W := p₁ }) / opCF inp 1,
    (-CF0q { inp with installed_price_dol_W := p₂ }) / opCF inp 1,
    out_ok np_irr hval₁, out_ok np_irr hval₂, ?_, ?_, ?_, ?_, ?_, ?_⟩
  · exact np_npv_fin h1r _
  · exact np_npv_fin h1r _
  · rw [hT, hT]
    linarith
  · show PyFloat.div (PyFloat.fin ((-CF0q { inp with installed_price_dol_W := p₁ } : ℚ) : ℝ))
      (PyFloat.fin ((opCF inp 1 : ℚ) : ℝ)) = _
    rw [PyFloat.div_fin_fin_of_ne _ (by exact_mod_cast hcf1.ne')]
    rw [← Rat.cast_div]
  · show PyFloat.div (PyFloat.fin ((-CF0q { inp with installed_price_dol_W := p₂ } : ℚ) : ℝ))
      (PyFloat.fin ((opCF inp 1 : ℚ) : ℝ)) = _
    rw [PyFloat.div_fin_fin_of_ne _ (by exact_mod_cast hcf1.ne')]
    rw [← Rat.cast_div]
  · rw [div_lt_div_right hcf1]
    linarith

/-- C5 witness at a concrete profitable scenario. -/
theorem npv_decreases_payback_increases_in_price_witness :
    ∃ (o₁ o₂ : DGOut) (n₁ n₂ b₁ b₂ : ℚ),
      DGValProp.out np_irr_const0
        { (⟨1/2, 0, 3, 1/50, 1, 1, 1/4, 9/10, 0, 0, 1, 1/10, []⟩ : DGIn) with
          installed_price_dol_W := 1 } = Except.ok o₁ ∧
      DGValProp.out np_irr_const0
        { (⟨1/2, 0, 3, 1/50, 1, 1, 1/4, 9/10, 0, 0, 1, 1/10, []⟩ : DGIn) with
          installed_price_dol_W := 2 } = Except.ok o₂ ∧
      o₁.NPV_dol_kWh = PyFloat.fin ((n₁ : ℚ) : ℝ) ∧
      o₂.NPV_dol_kWh = PyFloat.fin ((n₂ : ℚ) : ℝ) ∧ n₂ < n₁ ∧
      o₁.PB_yrs = PyFloat.fin ((b₁ : ℚ) : ℝ) ∧
      o₂.PB_yrs = PyFloat.fin ((b₂ : ℚ) : ℝ) ∧ b₁ < b₂ :=
  npv_decreases_payback_increases_in_price np_irr_const0
    ⟨1/2, 0, 3, 1/50, 1, 1, 1/4, 9/10, 0, 0, 1, 1/10, []⟩ 1 2
    (by refine ⟨?_, ?_, ?_, ?_, ?_⟩ <;> norm_num [effDen])
    (by norm_num) (by norm_num) (by norm_num [opCF]) (by norm_num)

/-- C1 counterexample: an input whose effective-efficiency denominator
`1 - thermal_efficiency/baseline_thermal_efficiency *
therm_capacity_utilization/elec_capacity_utilization` is exactly zero makes
`DGValProp.out` raise ZeroDivisionError (the expression is evaluated with
plain Python scalar arithmetic), instead of returning NaN fields. -/
theorem out_raises_on_zero_efficiency_denominator :
    DGValProp.out np_irr_const0 inpC1 = Except.error "ZeroDivisionError" := by
  have heff : Effective_Electric_Efficiency inpC1 =
      Except.error "ZeroDivisionError" := by
    unfold Effective_Electric_Efficiency inpC1
    rw [pydiv_ok _ (by norm_num), okBind, pydiv_ok _ (by norm_num), okBind]
    norm_num [pydiv]
  have hcf : CashFlows_dol_kWh inpC1 = Except.ok (cashFlowsQ inpC1) :=
    CashFlows_ok (by norm_num [inpC1]) (by norm_num [inpC1])
      (by norm_num [inpC1]) (by norm_num [inpC1])
  have hlc := LCOE_ok (by norm_num [inpC1] : inpC1.electric_efficiency ≠ 0)
    (by norm_num [inpC1]) (by norm_num [inpC1])
  simp only [DGValProp.out, hcf, okBind,
    show (cashFlowsQ inpC1).get? 0 = some (CF0q inpC1) from rfl,
    show (cashFlowsQ inpC1).get? 1 = some (opCF inpC1 1) from rfl,
    hlc, heff, errorBind]

/-- C1 amended: on any input with nonzero Python-scalar denominators (a valid
input), `DGValProp.out` returns normally; a non-convergent IRR surfaces as a
NaN IRR field and a zero first-year cash flow surfaces as a non-finite
(inf, -inf or NaN) payback value rather than an exception.  A zero
effective-efficiency denominator, by contrast, raises ZeroDivisionError
because that expression uses plain Python scalar division (see the
counterexample). -/
theorem out_edge_cases_yield_undefined_fields
    (np_irr : List ℚ → Except Unit PyFloat) (inp : DGIn) (hval : inp.valid) :
    ∃ o : DGOut, DGValProp.out np_irr inp = Except.ok o ∧
      (np_irr (cashFlowsQ inp) = Except.error () → o.IRR = PyFloat.nan) ∧
      (opCF inp 1 = 0 →
        o.PB_yrs = PyFloat.inf ∨ o.PB_yrs = PyFloat.ninf ∨ o.PB_yrs = PyFloat.nan) := by
  refine ⟨DGOutOf np_irr inp, out_ok np_irr hval, ?_, ?_⟩
  · intro h
    show (match np_irr (cashFlowsQ inp) with
      | Except.ok v => v
      | Except.error _ => PyFloat.nan) = PyFloat.nan
    rw [h]
  · intro h
    show PyFloat.div (PyFloat.fin ((-CF0q inp : ℚ) : ℝ))
        (PyFloat.fin ((opCF inp 1 : ℚ) : ℝ)) = PyFloat.inf ∨
      PyFloat.div (PyFloat.fin ((-CF0q inp : ℚ) : ℝ))
        (PyFloat.fin ((opCF inp 1 : ℚ) : ℝ)) = PyFloat.ninf ∨
      PyFloat.div (PyFloat.fin ((-CF0q inp : ℚ) : ℝ))
        (PyFloat.fin ((opCF inp 1 : ℚ) : ℝ)) = PyFloat.nan
    rw [h]
    rcases lt_trichotomy (CF0q inp) 0 with hc | hc | hc
    · left
      rw [show ((0 : ℚ) : ℝ) = 0 from by norm_num]
      exact PyFloat.div_fin_zero_pos (by
        have : (0 : ℚ) < -CF0q inp := by linarith
        exact_mod_cast this)
    · right; right
      rw [hc]
      rw [show ((0 : ℚ) : ℝ) = 0 from by norm_num,
        show ((-(0 : ℚ) : ℚ) : ℝ) = 0 from by norm_num]
      exact PyFloat.div_fin_zero_zero
    · right; left
      rw [show ((0 : ℚ) : ℝ) = 0 from by norm_num]
      exact PyFloat.div_fin_zero_neg (by
        have : -CF0q inp < 0 := by linarith
        exact_mod_cast this)

/-- C1 witness: a concrete valid input with zero first-year cash flow under a
non-convergent IRR oracle. -/
theorem out_edge_cases_yield_undefined_fields_witness :
    ∃ o : DGOut, DGValProp.out np_irr_fail
        ⟨1/2, 0, 3, 1/50, 1, 1, 1/4, 9/10, 0, 0, 11/50, 1/10, []⟩ = Except.ok o ∧
      (np_irr_fail (cashFlowsQ
          ⟨1/2, 0, 3, 1/50, 1, 1, 1/4, 9/10, 0, 0, 11/50, 1/10, []⟩) =
        Except.error () → o.IRR = PyFloat.nan) ∧
      (opCF ⟨1/2, 0, 3, 1/50, 1, 1, 1/4, 9/10, 0, 0, 11/50, 1/10, []⟩ 1 = 0 →
        o.PB_yrs = PyFloat.inf ∨ o.PB_yrs = PyFloat.ninf ∨ o.PB_yrs = PyFloat.nan) :=
  out_edge_cases_yield_undefined_fields np_irr_fail
    ⟨1/2, 0, 3, 1/50, 1, 1, 1/4, 9/10, 0, 0, 11/50, 1/10, []⟩
    (by refine ⟨?_, ?_, ?_, ?_, ?_⟩ <;> norm_num [effDen])

/-- C4 amended: over a nonempty region list with valid cells and nonnegative
net generation for every region, the aggregated total market is exactly the
sum of the region generations (TWh) and the addressed-market grid is exactly
the element-wise sum over regions of generation times that region
max-market-penetration grid.  With a negative generation the accumulation
loop can discard earlier contributions when the running total returns to
zero (see the counterexample). -/
theorem aggregation_weighted_sum_of_nonneg_generation
    (np_irr : List ℚ → Except Unit PyFloat) (regions : List RegionYearData)
    (xn : String) (xs : List ℚ) (yn : String) (ys : List ℚ) (p : NominalParams)
    (gbe : ℚ) (hne : regions ≠ [])
    (hval : ∀ rd ∈ regions, ∀ x ∈ xs, ∀ y ∈ ys, (studyCell rd xn x yn y p).valid)
    (hgen : ∀ rd ∈ regions, 0 ≤ rd.net_generation_kWh) :
    ∃ agg : MarketAgg,
      MarketStudy np_irr regions xn xs yn ys p gbe = Except.ok agg ∧
      agg.TotalMarket_TWh = specTotalMarket regions ∧
      agg.AddressedMarket_TWh = specAddressedMarket np_irr regions xn xs yn ys p := by
  have hg : ∀ gm ∈ (regions.map fun rd => (rd.net_generation_kWh / 1000000000,
      metricGrid np_irr ValMetric.MaxMarketPen rd xn xs yn ys p)), 0 ≤ gm.1 := by
    intro gm hgm
    simp only [List.mem_map] at hgm
    obtain ⟨rd, hrd, rfl⟩ := hgm
    have := hgen rd hrd
    positivity
  have hs : ∀ gm ∈ (regions.map fun rd => (rd.net_generation_kWh / 1000000000,
      metricGrid np_irr ValMetric.MaxMarketPen rd xn xs yn ys p)),
      gridShape gm.2 ys.length xs.length := by
    intro gm hgm
    simp only [List.mem_map] at hgm
    obtain ⟨rd, hrd, rfl⟩ := hgm
    exact metricGrid_shape np_irr ValMetric.MaxMarketPen rd xn xs yn ys p
  have hf : ∀ gm ∈ (regions.map fun rd => (rd.net_generation_kWh / 1000000000,
      metricGrid np_irr ValMetric.MaxMarketPen rd xn xs yn ys p)),
      gridAllFin gm.2 := by
    intro gm hgm
    simp only [List.mem_map] at hgm
    obtain ⟨rd, hrd, rfl⟩ := hgm
    exact metricGrid_MMP_allFin np_irr (hval rd hrd)
  have hsum := marketFold_eq_sum hg hs hf
  refine ⟨_, MarketStudy_ok np_irr hne hval, ?_, ?_⟩
  · show (marketFold ys.length xs.length (regions.map fun rd =>
      (rd.net_generation_kWh / 1000000000,
        metricGrid np_irr ValMetric.MaxMarketPen rd xn xs yn ys p))).1 =
      specTotalMarket regions
    rw [hsum]
    unfold specTotalMarket
    simp only [List.map_map]
    rfl
  · show (marketFold ys.length xs.length (regions.map fun rd =>
      (rd.net_generation_kWh / 1000000000,
        metricGrid np_irr ValMetric.MaxMarketPen rd xn xs yn ys p))).2 =
      specAddressedMarket np_irr regions xn xs yn ys p
    rw [hsum]
    unfold specAddressedMarket
    simp only [List.map_map]
    rfl

theorem mmpA_pos : 0 < mmpA := by
  unfold mmpA
  have h2π : (0 : ℝ) < 2 * Real.pi := by positivity
  positivity

theorem studyCell_price_maint_valid (rd : RegionYearData) (p : NominalParams)
    (x y : ℚ) (he : p.electric_efficiency ≠ 0)
    (hb : p.baseline_thermal_efficiency ≠ 0)
    (hu : p.elec_capacity_utilization ≠ 0) (hl : 1 ≤ p.life_yrs)
    (hd : 1 - p.thermal_efficiency / p.baseline_thermal_efficiency *
      p.therm_capacity_utilization / p.elec_capacity_utilization ≠ 0) :
    (studyCell rd "installed_price_dol_W" x "maint_cost_dol_kWh" y p).valid :=
  ⟨he, hb, hu, hl, hd⟩

theorem gridA_eval : metricGrid np_irr_const0 ValMetric.MaxMarketPen regA
    "installed_price_dol_W" [876/100] "maint_cost_dol_kWh" [1/50] npMk =
    [[PyFloat.fin mmpA]] := by
  unfold metricGrid
  simp only [List.map_cons, List.map_nil, DGOutOf, DGOut.getattr]
  rw [show (-CF0q (studyCell regA "installed_price_dol_W" (876/100)
      "maint_cost_dol_kWh" (1/50) npMk) : ℚ) = 1 from by
    simp only [studyCell, DGIn.setattr, DGIn.set_spread, NominalParams.toDGIn,
      String.reduceEq, reduceIte, regA, npMk]
    norm_num [CF0q]]
  rw [show (opCF (studyCell regA "installed_price_dol_W" (876/100)
      "maint_cost_dol_kWh" (1/50) npMk) 1 : ℚ) = 1 from by
    simp only [studyCell, DGIn.setattr, DGIn.set_spread, NominalParams.toDGIn,
      String.reduceEq, reduceIte, regA, npMk]
    norm_num [opCF]]
  rw [PyFloat.div_fin_fin_of_ne _ (by norm_num)]
  rw [show ((1 : ℚ) : ℝ) / ((1 : ℚ) : ℝ) = 1 from by norm_num]
  have hlife : (studyCell regA "installed_price_dol_W" (876/100)
      "maint_cost_dol_kWh" (1/50) npMk).life_yrs = 1 := rfl
  rw [hlife]
  simp only [Maximum_Market_Penetration]
  rw [if_pos (by norm_num : (0 : ℝ) ≤ 1), if_neg (by norm_num : ¬((1 : ℕ) = 0))]
  rfl

theorem gridB_eval : metricGrid np_irr_const0 ValMetric.MaxMarketPen regB
    "installed_price_dol_W" [876/100] "maint_cost_dol_kWh" [1/50] npMk =
    [[PyFloat.fin 0]] := by
  unfold metricGrid
  simp only [List.map_cons, List.map_nil, DGOutOf, DGOut.getattr]
  rw [show (-CF0q (studyCell regB "installed_price_dol_W" (876/100)
      "maint_cost_dol_kWh" (1/50) npMk) : ℚ) = 1 from by
    simp only [studyCell, DGIn.setattr, DGIn.set_spread, NominalParams.toDGIn,
      String.reduceEq, reduceIte, regB, npMk]
    norm_num [CF0q]]
  rw [show (opCF (studyCell regB "installed_price_dol_W" (876/100)
      "maint_cost_dol_kWh" (1/50) npMk) 1 : ℚ) = -11/50 from by
    simp only [studyCell, DGIn.setattr, DGIn.set_spread, NominalParams.toDGIn,
      String.reduceEq, reduceIte, regB, npMk]
    norm_num [opCF]]
  rw [PyFloat.div_fin_fin_of_ne _ (by norm_num)]
  rw [show ((1 : ℚ) : ℝ) / ((-11/50 : ℚ) : ℝ) = -50/11 from by norm_num]
  simp only [Maximum_Market_Penetration]
  rw [if_neg (by norm_num : ¬((0 : ℝ) ≤ -50/11))]

theorem gridC_eval : metricGrid np_irr_const0 ValMetric.MaxMarketPen regC
    "installed_price_dol_W" [876/100] "maint_cost_dol_kWh" [1/50] npMk =
    [[PyFloat.fin 0]] := by
  unfold metricGrid
  simp only [List.map_cons, List.map_nil, DGOutOf, DGOut.getattr]
  rw [show (-CF0q (studyCell regC "installed_price_dol_W" (876/100)
      "maint_cost_dol_kWh" (1/50) npMk) : ℚ) = 1 from by
    simp only [studyCell, DGIn.setattr, DGIn.set_spread, NominalParams.toDGIn,
      String.reduceEq, reduceIte, regC, npMk]
    norm_num [CF0q]]
  rw [show (opCF (studyCell regC "installed_price_dol_W" (876/100)
      "maint_cost_dol_kWh" (1/50) npMk) 1 : ℚ) = -11/50 from by
    simp only [studyCell, DGIn.setattr, DGIn.set_spread, NominalParams.toDGIn,
      String.reduceEq, reduceIte, regC, npMk]
    norm_num [opCF]]
  rw [PyFloat.div_fin_fin_of_ne _ (by norm_num)]
  rw [show ((1 : ℚ) : ℝ) / ((-11/50 : ℚ) : ℝ) = -50/11 from by norm_num]
  simp only [Maximum_Market_Penetration]
  rw [if_neg (by norm_num : ¬((0 : ℝ) ≤ -50/11))]

/-- C4 counterexample: with regions of generation 3, -3 and 7 TWh, the running
total returns to zero after the second region, so the third loop iteration
takes the `if TotalMarket == 0` branch and overwrites the accumulated
addressed market.  The stored addressed-market grid is the zero grid, while
the element-wise weighted sum over the regions is `3 * mmpA > 0`. -/
theorem aggregation_addressed_market_not_weighted_sum :
    (MarketStudy np_irr_const0 [regA, regB, regC] "installed_price_dol_W"
        [876/100] "maint_cost_dol_kWh" [1/50] npMk (17/50)).map
      MarketAgg.AddressedMarket_TWh = Except.ok [[PyFloat.fin 0]] ∧
    specAddressedMarket np_irr_const0 [regA, regB, regC] "installed_price_dol_W"
      [876/100] "maint_cost_dol_kWh" [1/50] npMk ≠ [[PyFloat.fin 0]] := by
  have hval : ∀ rd ∈ [regA, regB, regC], ∀ x ∈ [(876 : ℚ)/100], ∀ y ∈ [(1 : ℚ)/50],
      (studyCell rd "installed_price_dol_W" x "maint_cost_dol_kWh" y npMk).valid := by
    intro rd hrd x hx y hy
    simp only [List.mem_singleton] at hx hy
    subst hx
    subst hy
    exact studyCell_price_maint_valid rd npMk _ _ (by norm_num [npMk])
      (by norm_num [npMk]) (by norm_num [npMk]) (by norm_num [npMk])
      (by norm_num [npMk])
  constructor
  · rw [MarketStudy_ok np_irr_const0 (by simp) hval]
    simp only [Except.map, Except.ok.injEq]
    show (marketFold 1 1 ([regA, regB, regC].map fun rd =>
      (rd.net_generation_kWh / 1000000000,
        metricGrid np_irr_const0 ValMetric.MaxMarketPen rd "installed_price_dol_W"
          [876/100] "maint_cost_dol_kWh" [1/50] npMk))).2 = [[PyFloat.fin 0]]
    simp only [List.map_cons, List.map_nil, gridA_eval, gridB_eval, gridC_eval]
    rw [show (regA.net_generation_kWh / 1000000000 : ℚ) = 3 from by norm_num [regA],
      show (regB.net_generation_kWh / 1000000000 : ℚ) = -3 from by norm_num [regB],
      show (regC.net_generation_kWh / 1000000000 : ℚ) = 7 from by norm_num [regC]]
    unfold marketFold
    simp only [List.foldl_cons, List.foldl_nil]
    norm_num
    show gridScale 7 [[PyFloat.fin 0]] = [[PyFloat.fin 0]]
    unfold gridScale gridMap
    simp only [List.map_cons, List.map_nil, PyFloat.mul_fin_fin]
    norm_num
  · unfold specAddressedMarket
    simp only [List.map_cons, List.map_nil, gridA_eval, gridB_eval, gridC_eval]
    rw [show (regA.net_generation_kWh / 1000000000 : ℚ) = 3 from by norm_num [regA],
      show (regB.net_generation_kWh / 1000000000 : ℚ) = -3 from by norm_num [regB],
      show (regC.net_generation_kWh / 1000000000 : ℚ) = 7 from by norm_num [regC]]
    unfold sumGrids zeroGrid gridScale gridMap gridZip
    simp only [List.foldl_cons, List.foldl_nil, List.map_cons, List.map_nil,
      List.replicate_succ, List.replicate_zero, List.zipWith_cons_cons,
      List.zipWith_nil_right, List.zipWith_nil_left, PyFloat.mul_fin_fin,
      PyFloat.add_fin_fin]
    intro h
    exact absurd h (by
      norm_num
      exact mmpA_pos.ne')

/-- C4 witness: a single profitable region with nonnegative generation. -/
theorem aggregation_weighted_sum_of_nonneg_generation_witness :
    ∃ agg : MarketAgg,
      MarketStudy np_irr_const0 [regA] "installed_price_dol_W" [876/100]
        "maint_cost_dol_kWh" [1/50] npMk (17/50) = Except.ok agg ∧
      agg.TotalMarket_TWh = specTotalMarket [regA] ∧
      agg.AddressedMarket_TWh = specAddressedMarket np_irr_const0 [regA]
        "installed_price_dol_W" [876/100] "maint_cost_dol_kWh" [1/50] npMk :=
  aggregation_weighted_sum_of_nonneg_generation np_irr_const0 [regA]
    "installed_price_dol_W" [876/100] "maint_cost_dol_kWh" [1/50] npMk (17/50)
    (by simp)
    (by
      intro rd hrd x hx y hy
      simp only [List.mem_singleton] at hx hy
      subst hx
      subst hy
      exact studyCell_price_maint_valid rd npMk _ _ (by norm_num [npMk])
        (by norm_num [npMk]) (by norm_num [npMk]) (by norm_num [npMk])
        (by norm_num [npMk]))
    (by
      intro rd hrd
      simp only [List.mem_singleton] at hrd
      subst hrd
      norm_num [regA])

/-- C6: for every aggregated (sector, year) over a nonempty region list with
valid cells, the primary-energy-savings (TWh) grid equals the addressed
market grid divided by the grid baseline efficiency times
`1 - grid_baseline_efficiency / E` element-wise, where `E` is the
effective-electric-efficiency grid of the last iterated region; and the
quads grid is the TWh grid divided by 293.1. -/
theorem primary_energy_savings_formula (np_irr : List ℚ → Except Unit PyFloat)
    (regions : List RegionYearData) (xn : String) (xs : List ℚ) (yn : String)
    (ys : List ℚ) (p : NominalParams) (gbe : ℚ) (hne : regions ≠ [])
    (hval : ∀ rd ∈ regions, ∀ x ∈ xs, ∀ y ∈ ys, (studyCell rd xn x yn y p).valid) :
    ∃ agg : MarketAgg,
      MarketStudy np_irr regions xn xs yn ys p gbe = Except.ok agg ∧
      agg.PrimaryEnergySavings_TWh = gridZip PyFloat.mul
        (gridMap (fun a => PyFloat.div a (PyFloat.fin ((gbe : ℚ) : ℝ)))
          agg.AddressedMarket_TWh)
        (gridMap (fun e => PyFloat.sub (PyFloat.fin 1)
          (PyFloat.div (PyFloat.fin ((gbe : ℚ) : ℝ)) e))
          (metricGrid np_irr ValMetric.Effective_Electric_Efficiency
            (regions.getLast hne) xn xs yn ys p)) ∧
      agg.PrimaryEnergySavings_Quads = gridMap
        (fun a => PyFloat.div a (PyFloat.fin ((2931/10 : ℚ) : ℝ)))
        agg.PrimaryEnergySavings_TWh := by
  refine ⟨_, MarketStudy_ok np_irr hne hval, ?_, ?_⟩
  · unfold MarketAggOf
    dsimp only
    rw [List.getLast?_eq_getLast regions hne]
    rfl
  · unfold MarketAggOf
    dsimp only

/-- C6 witness at a concrete single-region aggregation. -/
theorem primary_energy_savings_formula_witness :
    ∃ agg : MarketAgg,
      MarketStudy np_irr_const0 [regA] "installed_price_dol_W" [876/100]
        "maint_cost_dol_kWh" [1/50] npMk (17/50) = Except.ok agg ∧
      agg.PrimaryEnergySavings_TWh = gridZip PyFloat.mul
        (gridMap (fun a => PyFloat.div a (PyFloat.fin ((17/50 : ℚ) : ℝ)))
          agg.AddressedMarket_TWh)
        (gridMap (fun e => PyFloat.sub (PyFloat.fin 1)
          (PyFloat.div (PyFloat.fin ((17/50 : ℚ) : ℝ)) e))
          (metricGrid np_irr_const0 ValMetric.Effective_Electric_Efficiency
            ([regA].getLast (by simp)) "installed_price_dol_W" [876/100]
            "maint_cost_dol_kWh" [1/50] npMk)) ∧
      agg.PrimaryEnergySavings_Quads = gridMap
        (fun a => PyFloat.div a (PyFloat.fin ((2931/10 : ℚ) : ℝ)))
        agg.PrimaryEnergySavings_TWh :=
  primary_energy_savings_formula np_irr_const0 [regA] "installed_price_dol_W"
    [876/100] "maint_cost_dol_kWh" [1/50] npMk (17/50) (by simp)
    (by
      intro rd hrd x hx y hy
      simp only [List.mem_singleton] at hx hy
      subst hx
      subst hy
      exact studyCell_price_maint_valid rd npMk _ _ (by norm_num [npMk])
        (by norm_num [npMk]) (by norm_num [npMk]) (by norm_num [npMk])
        (by norm_num [npMk]))

/-- When the accumulated total market is zero and all generations are
nonnegative with finite well-shaped grids, the accumulated addressed market
is the zero grid. -/
theorem marketFold_zero_total {n m : ℕ} {contribs : List (ℚ × List (List PyFloat))}
    (hg : ∀ gm ∈ contribs, 0 ≤ gm.1)
    (hs : ∀ gm ∈ contribs, gridShape gm.2 n m)
    (hf : ∀ gm ∈ contribs, gridAllFin gm.2)
    (h0 : (marketFold n m contribs).1 = 0) :
    (marketFold n m contribs).2 = zeroGrid n m := by
  have hsum := marketFold_eq_sum hg hs hf
  rw [hsum] at h0 ⊢
  have hzero : ∀ q ∈ contribs.map Prod.fst, q = 0 :=
    list_sum_zero_of_nonneg (by
      intro q hq
      simp only [List.mem_map] at hq
      obtain ⟨gm, hgm, rfl⟩ := hq
      exact hg gm hgm) h0
  apply sumGrids_all_zero
  intro g hg2
  simp only [List.mem_map] at hg2
  obtain ⟨gm, hgm, rfl⟩ := hg2
  have hq : gm.1 = 0 := hzero gm.1 (List.mem_map_of_mem _ hgm)
  rw [hq]
  exact gridScale_zero (hs gm hgm) (hf gm hgm)

/-- C7 counterexample: with no contributing regions the aggregation loop does
not complete: after the (empty) region loop the code reads the loop variable
`region`, which was never bound, so Python raises NameError instead of
producing NaN grids. -/
theorem aggregation_crashes_on_empty_regions :
    MarketStudy np_irr_const0 [] "installed_price_dol_W" [876/100]
      "maint_cost_dol_kWh" [1/50] npMk (17/50) = Except.error "NameError" := rfl

/-- C7 amended: over a nonempty region list with valid cells and nonnegative
generations, the aggregation returns normally, the total-market-penetration
grid is the addressed-market grid divided element-wise by the total market,
and when the total market is zero every entry of the penetration grid is
NaN. -/
theorem market_penetration_grid_division_and_nan
    (np_irr : List ℚ → Except Unit PyFloat) (regions : List RegionYearData)
    (xn : String) (xs : List ℚ) (yn : String) (ys : List ℚ) (p : NominalParams)
    (gbe : ℚ) (hne : regions ≠ [])
    (hval : ∀ rd ∈ regions, ∀ x ∈ xs, ∀ y ∈ ys, (studyCell rd xn x yn y p).valid)
    (hgen : ∀ rd ∈ regions, 0 ≤ rd.net_generation_kWh) :
    ∃ agg : MarketAgg,
      MarketStudy np_irr regions xn xs yn ys p gbe = Except.ok agg ∧
      agg.TotalMarketPen = gridMap (fun a => PyFloat.div a
        (PyFloat.fin ((agg.TotalMarket_TWh : ℚ) : ℝ))) agg.AddressedMarket_TWh ∧
      (agg.TotalMarket_TWh = 0 →
        ∀ row ∈ agg.TotalMarketPen, ∀ v ∈ row, v = PyFloat.nan) := by
  have hg : ∀ gm ∈ (regions.map fun rd => (rd.net_generation_kWh / 1000000000,
      metricGrid np_irr ValMetric.MaxMarketPen rd xn xs yn ys p)), 0 ≤ gm.1 := by
    intro gm hgm
    simp only [List.mem_map] at hgm
    obtain ⟨rd, hrd, rfl⟩ := hgm
    have := hgen rd hrd
    positivity
  have hs : ∀ gm ∈ (regions.map fun rd => (rd.net_generation_kWh / 1000000000,
      metricGrid np_irr ValMetric.MaxMarketPen rd xn xs yn ys p)),
      gridShape gm.2 ys.length xs.length := by
    intro gm hgm
    simp only [List.mem_map] at hgm
    obtain ⟨rd, hrd, rfl⟩ := hgm
    exact metricGrid_shape np_irr ValMetric.MaxMarketPen rd xn xs yn ys p
  have hf : ∀ gm ∈ (regions.map fun rd => (rd.net_generation_kWh / 1000000000,
      metricGrid np_irr ValMetric.MaxMarketPen rd xn xs yn ys p)),
      gridAllFin gm.2 := by
    intro gm hgm
    simp only [List.mem_map] at hgm
    obtain ⟨rd, hrd, rfl⟩ := hgm
    exact metricGrid_MMP_allFin np_irr (hval rd hrd)
  refine ⟨_, MarketStudy_ok np_irr hne hval, rfl, ?_⟩
  intro htot
  have htot2 : (marketFold ys.length xs.length (regions.map fun rd =>
      (rd.net_generation_kWh / 1000000000,
        metricGrid np_irr ValMetric.MaxMarketPen rd xn xs yn ys p))).1 = 0 := htot
  have haddr : (marketFold ys.length xs.length (regions.map fun rd =>
      (rd.net_generation_kWh / 1000000000,
        metricGrid np_irr ValMetric.MaxMarketPen rd xn xs yn ys p))).2 =
      zeroGrid ys.length xs.length :=
    marketFold_zero_total hg hs hf htot2
  have hpen : (MarketAggOf np_irr regions xn xs yn ys p gbe).TotalMarketPen =
      gridMap (fun a => PyFloat.div a (PyFloat.fin ((0 : ℚ) : ℝ)))
        (zeroGrid ys.length xs.length) := by
    show gridMap (fun a => PyFloat.div a
        (PyFloat.fin (((marketFold ys.length xs.length (regions.map fun rd =>
          (rd.net_generation_kWh / 1000000000,
            metricGrid np_irr ValMetric.MaxMarketPen rd xn xs yn ys p))).1 : ℚ) : ℝ)))
      (marketFold ys.length xs.length (regions.map fun rd =>
        (rd.net_generation_kWh / 1000000000,
          metricGrid np_irr ValMetric.MaxMarketPen rd xn xs yn ys p))).2 = _
    rw [haddr, htot2]
  rw [hpen]
  intro row hrow v hv
  simp only [gridMap, zeroGrid, List.mem_map] at hrow
  obtain ⟨r0, hr0, rfl⟩ := hrow
  rw [List.eq_of_mem_replicate hr0] at hv
  simp only [List.mem_map] at hv
  obtain ⟨w, hw, rfl⟩ := hv
  rw [List.eq_of_mem_replicate hw]
  rw [show ((0 : ℚ) : ℝ) = 0 from by norm_num]
  exact PyFloat.div_fin_zero_zero

/-- C7 witness: a single region whose generation is zero, so the total market
is zero and the penetration grid is all NaN. -/
theorem market_penetration_grid_division_and_nan_witness :
    ∃ agg : MarketAgg,
      MarketStudy np_irr_const0 [regZ] "installed_price_dol_W" [876/100]
        "maint_cost_dol_kWh" [1/50] npMk (17/50) = Except.ok agg ∧
      agg.TotalMarketPen = gridMap (fun a => PyFloat.div a
        (PyFloat.fin ((agg.TotalMarket_TWh : ℚ) : ℝ))) agg.AddressedMarket_TWh ∧
      (agg.TotalMarket_TWh = 0 →
        ∀ row ∈ agg.TotalMarketPen, ∀ v ∈ row, v = PyFloat.nan) :=
  market_penetration_grid_division_and_nan np_irr_const0 [regZ]
    "installed_price_dol_W" [876/100] "maint_cost_dol_kWh" [1/50] npMk (17/50)
    (by simp)
    (by
      intro rd hrd x hx y hy
      simp only [List.mem_singleton] at hx hy
      subst hx
      subst hy
      exact studyCell_price_maint_valid rd npMk _ _ (by norm_num [npMk])
        (by norm_num [npMk]) (by norm_num [npMk]) (by norm_num [npMk])
        (by norm_num [npMk]))
    (by
      intro rd hrd
      simp only [List.mem_singleton] at hrd
      subst hrd
      norm_num [regZ])

